import Mathlib

/-!
Verification development for the geographic core of the pycoa repository
(module coa.geo): GeoManager (name standardization), GeoRegion (region
catalogue) and GeoInfo (field augmentation on tabular data).

The Python source is shallowly embedded: pure fragments become Lean
functions, pandas frames become an explicit record type, Python object
mutation relevant to aliasing is modelled with an explicit heap of frames,
exceptions become an Except monad, and the external collaborators
(the pycountry catalogue, the pycountry-convert continent mapping and the
fetched reference tables) become explicit parameters, since their content
is not part of the repository.
-/

/- ------------------------------------------------------------------ -/
/- Python-level string primitives used by the source                  -/
/- ------------------------------------------------------------------ -/

/-- Python str.lower restricted to ASCII, as used on country names. -/
def pyLower (s : String) : String :=
  String.mk (s.toList.map Char.toLower)

/-- One step of Python str.title: the boolean says whether the previous
character was alphabetic; a letter after a non-letter is uppercased and
every other letter is lowercased. -/
def pyTitleGo : Bool → List Char → List Char
  | _, [] => []
  | prevAlpha, c :: cs =>
    (if c.isAlpha then (if prevAlpha then c.toLower else c.toUpper) else c) ::
      pyTitleGo c.isAlpha cs

/-- Python str.title as applied by to_standard to every input name. -/
def pyTitle (s : String) : String :=
  String.mk (pyTitleGo false s.toList)

/-- Python str.rstrip restricted to the space character. -/
def pyRStrip (s : String) : String :=
  String.mk (((s.toList.reverse).dropWhile (· = ' ')).reverse)

/-- Head of a Python split on the opening parenthesis character:
everything before the first such character, the whole string if none. -/
def pySplitParenHead (s : String) : String :=
  String.mk (s.toList.takeWhile (· ≠ '('))

/-- Python str.replace of the space character by the empty string. -/
def pyRemoveSpaces (s : String) : String :=
  String.mk (s.toList.filter (· ≠ ' '))

/-- Python str.split on a single separator character. -/
def pySplitOnChar (sep : Char) (s : String) : List String :=
  (s.toList.splitOn sep).map String.mk

/-- Lexicographic strict comparison of character lists by code point,
the order Python uses to compare strings. -/
def pyCharsLt : List Char → List Char → Bool
  | [], [] => false
  | [], _ :: _ => true
  | _ :: _, [] => false
  | a :: as, b :: bs =>
    if a.toNat < b.toNat then true
    else if b.toNat < a.toNat then false
    else pyCharsLt as bs

/-- Strict string comparison by code points, as Python compares
strings. -/
def pyStrLt (a b : String) : Bool :=
  pyCharsLt a.toList b.toList

/-- Insertion step for the embedding of the Python builtin sorted on
strings. -/
def pyInsertStr (x : String) : List String → List String
  | [] => [x]
  | y :: ys => if pyStrLt x y then x :: y :: ys else y :: pyInsertStr x ys

/-- Python builtin sorted on a list of strings (stable insertion sort,
lexicographic code-point order). -/
def pySortStrings : List String → List String
  | [] => []
  | x :: xs => pyInsertStr x (pySortStrings xs)

/-- Python dict built by dict(zip(keys, values)): pairs are inserted left
to right, a repeated key keeps its first position but takes the last
value. -/
def pyDictZipStr : List (String × String) → List String → List String → List (String × String)
  | acc, [], _ => acc
  | acc, _, [] => acc
  | acc, k :: ks, v :: vs =>
    let acc2 :=
      if acc.any (fun p => p.1 = k) then
        acc.map (fun p => if p.1 = k then (k, v) else p)
      else acc ++ [(k, v)]
    pyDictZipStr acc2 ks vs

/-- Python str applied to a list of strings: bracketed, comma separated,
each element between single quotes (the embedded names contain no quote
or escape, so repr is plain quoting). -/
def pyStrList (l : List String) : String :=
  "[" ++ String.intercalate ", " (l.map (fun s => "\x27" ++ s ++ "\x27")) ++ "]"

/- ------------------------------------------------------------------ -/
/- Error taxonomy                                                     -/
/- ------------------------------------------------------------------ -/

/-- Errors observable from the embedded code: the CoaError hierarchy of
coa.error plus the Python runtime errors the source can actually raise,
and an artificial fuel marker for the work-queue loop of to_standard,
whose termination is data dependent. -/
inductive CoaErr where
  | keyError (msg : String)
  | typeError (msg : String)
  | dbError (msg : String)
  | lookupError (msg : String)
  | notManagedError (msg : String)
  | pyAttributeError (msg : String)
  | pyValueError (msg : String)
  | noFuel
deriving DecidableEq, Repr

/-- Decidable equality of computation outcomes, used to settle claims
on concrete runs. -/
instance {e a : Type} [DecidableEq e] [DecidableEq a] : DecidableEq (Except e a) := fun
  | .error e1, .error e2 =>
    if h : e1 = e2 then .isTrue (by rw [h])
    else .isFalse (fun hh => h (Except.error.inj hh))
  | .error _, .ok _ => .isFalse (fun hh => Except.noConfusion hh)
  | .ok _, .error _ => .isFalse (fun hh => Except.noConfusion hh)
  | .ok a1, .ok a2 =>
    if h : a1 = a2 then .isTrue (by rw [h])
    else .isFalse (fun hh => h (Except.ok.inj hh))

/- ------------------------------------------------------------------ -/
/- The external pycountry catalogue                                   -/
/- ------------------------------------------------------------------ -/

/-- One entry of the authoritative country catalogue: iso2, iso3, display
name and numeric code. -/
structure CountryRecord where
  alpha_2 : String
  alpha_3 : String
  name : String
  numeric : String
deriving DecidableEq, Repr

/-- Modelled from the spec: the external authoritative country catalogue
(pycountry), offering an exact lookup and an approximate ranked search.
The records list carries the catalogue content; the fuzzy search is kept
abstract since its ranking algorithm lives outside the repository. -/
structure Catalogue where
  records : List CountryRecord
  fuzzy : String → List CountryRecord

/-- Modelled from the spec: the exact lookup of the catalogue, matching a
query case-insensitively against the code and name fields of each record
and returning the first hit. -/
def pc_lookup (records : List CountryRecord) (q : String) : Option CountryRecord :=
  records.find? (fun r =>
    pyLower q == pyLower r.alpha_2 || pyLower q == pyLower r.alpha_3 ||
    pyLower q == pyLower r.name || q == r.numeric)

/- ------------------------------------------------------------------ -/
/- GeoRegion                                                          -/
/- ------------------------------------------------------------------ -/

/-- Key of the region dictionary: the UN M49 rows contribute integer
codes, the hardcoded entries contribute strings (Python dicts mix both). -/
inductive RKey where
  | ik (n : Int)
  | sk (s : String)
deriving DecidableEq, Repr

/-- One row of the flattened (iso3, capital, region code, region name)
relation built by the GeoRegion constructor; region_name is none when the
left join against the M49 table found no matching code (a pandas NaN). -/
structure PGSRow where
  iso3 : String
  capital : String
  region : Int
  region_name : Option String
deriving DecidableEq, Repr

/-- One raw row of the fetched UN geoscheme table, after the column
renaming of the constructor (country, capital, iso2, iso3, num, m49). -/
structure GSRawRow where
  country : String
  capital : String
  iso2 : String
  iso3 : String
  num : String
  m49 : String
deriving DecidableEq, Repr

/-- Python dict assignment d[k] = v: an existing key keeps its position
and takes the new value, a fresh key is appended. -/
def pyDictSet (d : List (RKey × String)) (k : RKey) (v : String) : List (RKey × String) :=
  if d.any (fun p => p.1 = k) then
    d.map (fun p => if p.1 = k then (k, v) else p)
  else d ++ [(k, v)]

/-- Python dict.update with a sequence of key-value pairs, applied left
to right. -/
def pyDictUpdate (d : List (RKey × String)) (kvs : List (RKey × String)) : List (RKey × String) :=
  kvs.foldl (fun acc p => pyDictSet acc p.1 p.2) d

/-- Python int() on a string, as applied to each M49 code fragment of a
geoscheme row: an optional minus sign followed by at least one decimal
digit; anything else is the ValueError int() raises on a malformed
fragment (the fragments are plain digit runs, so the further Python
niceties such as surrounding whitespace are not modelled). -/
def pyInt (s : String) : Except CoaErr Int :=
  let p : Bool × List Char :=
    match s.toList with
    | '-' :: rest => (true, rest)
    | cs => (false, cs)
  if p.2.isEmpty || !(p.2.all (fun c => 48 ≤ c.toNat && c.toNat ≤ 57)) then
    .error (.pyValueError ("invalid literal for int() with base 10: " ++ s))
  else
    let n : Nat := p.2.foldl (fun a c => a * 10 + (c.toNat - 48)) 0
    .ok (if p.1 then -(n : Int) else (n : Int))

/-- GeoRegion state: the region dictionary (M49 codes and hardcoded
blocs to display names) and the flattened geoscheme relation. -/
structure GeoRegion where
  region_dict : List (RKey × String)
  p_gs : List PGSRow
deriving DecidableEq, Repr

/-- Hardcoded pairs appended to the region dictionary by the GeoRegion
constructor, in source order. -/
def region_fixed_pairs : List (RKey × String) :=
  [(.sk "UE", "European Union"), (.sk "G7", "G7"), (.sk "G8", "G8"),
   (.sk "G20", "G20"), (.sk "OECD", "Oecd"), (.sk "G77", "G77")]

/-- Explosion of one geoscheme row: a row whose iso3 is the literal dash
marker is skipped entirely, otherwise one (iso3, capital, code) triple is
produced per M49 code fragment of the row. -/
def gsExplodeRow (row : GSRawRow) : Except CoaErr (List (String × String × Int)) :=
  if row.iso3 = "–" then .ok []
  else
    (pySplitOnChar '<' (pyRemoveSpaces row.m49)).mapM
      (fun frag => do
        let n ← pyInt frag
        pure (row.iso3, row.capital, n))

/-- Left join of the exploded geoscheme triples against the M49 table on
the region code, one output row per matching M49 row, a single row with a
missing name when no code matches. -/
def gsMergeM49 (triples : List (String × String × Int)) (m49 : List (Int × String)) : List PGSRow :=
  triples.flatMap (fun t =>
    let ms := m49.filter (fun q => q.1 = t.2.2)
    if ms.isEmpty then [⟨t.1, t.2.1, t.2.2, none⟩]
    else ms.map (fun q => ⟨t.1, t.2.1, t.2.2, some q.2⟩))

/-- Row-by-row explosion of the whole geoscheme table, in table order,
stopping at the first malformed row exactly as the constructor loop
would. -/
def gsExplodeAll : List GSRawRow → Except CoaErr (List (String × String × Int))
  | [] => .ok []
  | row :: rest =>
    match gsExplodeRow row with
    | .error e => .error e
    | .ok ts =>
      match gsExplodeAll rest with
      | .error e => .error e
      | .ok rs => .ok (ts ++ rs)

/-- The GeoRegion constructor, as a function of the two fetched tables:
the UN M49 table (code, display name) and the UN geoscheme table. It
strips any parenthetical annotation from M49 names, builds the region
dictionary (M49 rows first, then the hardcoded blocs) and the flattened
relation joined on the region code. -/
def GeoRegion.init (m49raw : List (Int × String)) (gsraw : List GSRawRow) :
    Except CoaErr GeoRegion :=
  let p_m49 : List (Int × String) :=
    m49raw.map (fun p => (p.1, pyRStrip (pySplitParenHead p.2)))
  let d1 := pyDictUpdate [] (p_m49.map (fun p => (RKey.ik p.1, p.2)))
  let d2 := pyDictUpdate d1 region_fixed_pairs
  match gsExplodeAll gsraw with
  | .error e => .error e
  | .ok triples => .ok ⟨d2, gsMergeM49 triples p_m49⟩

/-- Values of the region dictionary, in insertion order: the list of
known region display names. -/
def GeoRegion.get_region_list (gr : GeoRegion) : List String :=
  gr.region_dict.map (fun p => p.2)

/-- Hardcoded European Union member list, in source order. -/
def eu_clist : List String :=
  ["AUT", "BEL", "BGR", "CYP", "CZE", "DEU", "DNK", "EST",
   "ESP", "FIN", "FRA", "GRC", "HRV", "HUN", "IRL", "ITA",
   "LTU", "LUX", "LVA", "MLT", "NLD", "POL", "PRT", "ROU",
   "SWE", "SVN", "SVK"]

/-- Hardcoded G7 member list, in source order. -/
def g7_clist : List String :=
  ["DEU", "CAN", "USA", "FRA", "ITA", "JAP", "GBR"]

/-- Hardcoded G8 member list, in source order. -/
def g8_clist : List String :=
  ["DEU", "CAN", "USA", "FRA", "ITA", "JAP", "GBR", "RUS"]

/-- Hardcoded G20 member list, in source order. -/
def g20_clist : List String :=
  ["ZAF", "SAU", "ARG", "AUS", "BRA", "CAN", "CHN", "KOR", "USA",
   "IND", "IDN", "JAP", "MEX", "GBR", "RUS", "TUR",
   "AUT", "BEL", "BGR", "CYP", "CZE", "DEU", "DNK", "EST",
   "ESP", "FIN", "FRA", "GRC", "HRV", "HUN", "IRL", "ITA",
   "LTU", "LUX", "LVA", "MLT", "NLD", "POL", "PRT", "ROU",
   "SWE", "SVN", "SVK"]

/-- Hardcoded OECD member list, in source order. -/
def oecd_clist : List String :=
  ["DEU", "AUS", "AUT", "BEL", "CAN", "CHL", "COL", "KOR", "DNK",
   "ESP", "EST", "USA", "FIN", "FRA", "GRC", "HUN", "IRL", "ISL", "ISR",
   "ITA", "JAP", "LVA", "LTU", "LUX", "MEX", "NOR", "NZL", "NLD", "POL",
   "PRT", "SVK", "SVN", "SWE", "CHE", "GBR", "CZE", "TUR"]

/-- Hardcoded G77 member list, in source order. -/
def g77_clist : List String :=
  ["AFG", "DZA", "AGO", "ATG", "ARG", "AZE", "BHS", "BHR", "BGD", "BRB", "BLZ",
   "BEN", "BTN", "BOL", "BWA", "BRA", "BRN", "BFA", "BDI", "CPV", "KHM", "CMR",
   "CAF", "TCD", "CHL", "CHN", "COL", "COM", "COG", "CRI", "CIV", "CUB", "PRK",
   "COD", "DJI", "DMA", "DOM", "ECU", "EGY", "SLV", "GNQ", "ERI", "SWZ", "ETH",
   "FJI", "GAB", "GMB", "GHA", "GRD", "GTM", "GIN", "GNB", "GUY", "HTI", "HND",
   "IND", "IDN", "IRN", "IRQ", "JAM", "JOR", "KEN", "KIR", "KWT", "LAO", "LBN",
   "LSO", "LBR", "LBY", "MDG", "MWI", "MYS", "MDV", "MLI", "MHL", "MRT", "MUS",
   "FSM", "MNG", "MAR", "MOZ", "MMR", "NAM", "NRU", "NPL", "NIC", "NER", "NGA",
   "OMN", "PAK", "PAN", "PNG", "PRY", "PER", "PHL", "QAT", "RWA", "KNA", "LCA",
   "VCT", "WSM", "STP", "SAU", "SEN", "SYC", "SLE", "SGP", "SLB", "SOM", "ZAF",
   "SSD", "LKA", "PSE", "SDN", "SUR", "SYR", "TJK", "THA", "TLS", "TGO", "TON",
   "TTO", "TUN", "TKM", "UGA", "ARE", "TZA", "URY", "VUT", "VEN", "VNM", "YEM",
   "ZMB", "ZWE"]

/-- Member countries of a region: the name is title-cased, validated
against the known region names, the static blocs return their hardcoded
literals, any other known name selects the iso3 codes of the flattened
relation rows whose region name matches; the result is passed through the
Python builtin sorted. -/
def GeoRegion.get_countries_from_region (gr : GeoRegion) (region0 : String) :
    Except CoaErr (List String) :=
  let region := pyTitle region0
  if region ∉ gr.get_region_list then
    .error (.keyError ("The given region \"" ++ region ++ "\" is unknown."))
  else
    let clist : List String :=
      if region = "European Union" then eu_clist
      else if region = "G7" then g7_clist
      else if region = "G8" then g8_clist
      else if region = "G20" then g20_clist
      else if region = "Oecd" then oecd_clist
      else if region = "G77" then g77_clist
      else (gr.p_gs.filter (fun row => row.region_name = some region)).map (fun row => row.iso3)
    .ok (pySortStrings clist)

/- ------------------------------------------------------------------ -/
/- A small model of pandas frames                                     -/
/- ------------------------------------------------------------------ -/

/-- Atomic cell value of a frame: string, integer, or missing (NaN). -/
inductive VAtom where
  | vs (s : String)
  | vi (n : Int)
  | na
deriving DecidableEq, Repr

/-- Cell value of a frame: an atom, or a list of atoms (the only nesting
the embedded program produces, through a groupby aggregation). -/
inductive Value where
  | a (x : VAtom)
  | lst (l : List VAtom)
deriving DecidableEq, Repr

/-- A pandas DataFrame, reduced to what the source observes: an ordered
list of column labels and rows of cells. -/
structure DataFrame where
  cols : List String
  rows : List (List Value)
deriving DecidableEq, Repr

/-- The pandas empty property: no rows or no columns. -/
def DataFrame.pempty (df : DataFrame) : Bool :=
  df.rows.isEmpty || df.cols.isEmpty

/-- Position of the first column with the given label. -/
def DataFrame.colIdx (df : DataFrame) (c : String) : Option Nat :=
  df.cols.findIdx? (fun x => x == c)

/-- Cell of a row at a column position; out of range reads give NaN so
that ragged rows stay total (the embedded program never produces them on
the paths the theorems traverse). -/
def rowCell (row : List Value) (i : Nat) : Value :=
  (row.get? i).getD (Value.a .na)

/-- Column extraction, df[c].tolist(): none when the label is absent. -/
def DataFrame.getCol (df : DataFrame) (c : String) : Option (List Value) :=
  (df.colIdx c).map (fun i => df.rows.map (fun r => rowCell r i))

/-- Column extraction that raises like pandas on a missing label. -/
def DataFrame.getColE (df : DataFrame) (c : String) : Except CoaErr (List Value) :=
  match df.getCol c with
  | some l => .ok l
  | none => .error (.keyError c)

/-- Column assignment from a plain Python list, df[c] = values: pandas
raises a ValueError on a length mismatch, overwrites an existing column
in place, and appends a fresh one at the end. -/
def DataFrame.setCol (df : DataFrame) (c : String) (vals : List Value) :
    Except CoaErr DataFrame :=
  if vals.length ≠ df.rows.length then
    .error (.pyValueError "Length of values does not match length of index")
  else
    match df.colIdx c with
    | some i => .ok ⟨df.cols, (df.rows.zip vals).map (fun p => p.1.set i p.2)⟩
    | none => .ok ⟨df.cols ++ [c], (df.rows.zip vals).map (fun p => p.1 ++ [p.2])⟩

/-- Column assignment from a pandas Series: alignment on the default
integer index amounts to positional assignment padded with NaN or
truncated to the frame length, and never raises. -/
def DataFrame.setColSeries (df : DataFrame) (c : String) (vals : List Value) : DataFrame :=
  let padded := (vals.take df.rows.length) ++
    (List.replicate (df.rows.length - vals.length) (Value.a .na))
  match df.colIdx c with
  | some i => ⟨df.cols, (df.rows.zip padded).map (fun p => p.1.set i p.2)⟩
  | none => ⟨df.cols ++ [c], (df.rows.zip padded).map (fun p => p.1 ++ [p.2])⟩

/-- Column drop, df.drop(c, axis=1); when the label is absent the
behaviour depends on the errors option: ignore or raise. -/
def DataFrame.dropCol (df : DataFrame) (c : String) (ignoreMissing : Bool) :
    Except CoaErr DataFrame :=
  match df.colIdx c with
  | some i => .ok ⟨df.cols.eraseIdx i, df.rows.map (fun r => r.eraseIdx i)⟩
  | none =>
    if ignoreMissing then .ok df
    else .error (.keyError ("[\x27" ++ c ++ "\x27] not found in axis"))

/-- Iterated column drop, df.drop([c, ...], axis=1). -/
def DataFrame.dropCols (df : DataFrame) (cs : List String) (ignoreMissing : Bool) :
    Except CoaErr DataFrame :=
  cs.foldlM (fun acc c => acc.dropCol c ignoreMissing) df

/-- Column projection df[[c1, c2]], in the requested order. -/
def DataFrame.select (df : DataFrame) (cs : List String) : Except CoaErr DataFrame :=
  match cs.mapM df.colIdx with
  | some idxs => .ok ⟨cs, df.rows.map (fun r => idxs.map (fun i => rowCell r i))⟩
  | none => .error (.keyError "column not found in frame projection")

/-- Positional column selection df.iloc[:, positions]; pandas raises an
IndexError on an out of range position. -/
def DataFrame.ilocCols (df : DataFrame) (idxs : List Nat) : Except CoaErr DataFrame :=
  if idxs.all (fun i => i < df.cols.length) then
    .ok ⟨idxs.filterMap (fun i => df.cols.get? i), df.rows.map (fun r => idxs.map (fun i => rowCell r i))⟩
  else .error (.pyValueError "positional indexers are out-of-bounds")

/-- Keep the first occurrence of each row, df.drop_duplicates(). -/
def pyDedupRows (rs : List (List Value)) : List (List Value) :=
  rs.foldl (fun acc r => if acc.contains r then acc else acc ++ [r]) []

/-- Frame deduplication, df.drop_duplicates(). -/
def DataFrame.dropDuplicates (df : DataFrame) : DataFrame :=
  ⟨df.cols, pyDedupRows df.rows⟩

/-- Left merge, left.merge(right, how=left, left_on, right_on,
suffixes=(sl, sr)): column labels present on both sides are suffixed,
each left row is paired in order with every matching right row, and with
a row of NaN when no right key matches. Key matching is plain cell
equality (the embedded program only merges on string keys, so the pandas
NaN-key subtleties do not arise). -/
def DataFrame.mergeLeft (l r : DataFrame) (lk rk : String) (sl sr : String) :
    Except CoaErr DataFrame :=
  match l.colIdx lk, r.colIdx rk with
  | some li, some ri =>
    let overlap := fun c => l.cols.contains c && r.cols.contains c
    let lcols := l.cols.map (fun c => if overlap c then c ++ sl else c)
    let rcols := r.cols.map (fun c => if overlap c then c ++ sr else c)
    let rows := l.rows.flatMap (fun lr =>
      let key := rowCell lr li
      let ms := r.rows.filter (fun rr => rowCell rr ri == key)
      if ms.isEmpty then [lr ++ r.cols.map (fun _ => Value.a .na)]
      else ms.map (fun rr => lr ++ (List.range r.cols.length).map (fun i => rowCell rr i)))
    .ok ⟨lcols ++ rcols, rows⟩
  | _, _ => .error (.keyError "merge key not found")

/-- Ordering used by the groupby key sort; group keys produced by the
embedded program are strings, mixed-type keys never arise on its paths. -/
def valueLtB : Value → Value → Bool
  | .a (.vs s1), .a (.vs s2) => pyStrLt s1 s2
  | .a (.vi n1), .a (.vi n2) => n1 < n2
  | _, _ => false

/-- Insertion step of the groupby key sort. -/
def vInsert (x : Value) : List Value → List Value
  | [] => [x]
  | y :: ys => if valueLtB x y then x :: y :: ys else y :: vInsert x ys

/-- Stable sort of group keys, as the pandas groupby does by default. -/
def vSort : List Value → List Value
  | [] => []
  | x :: xs => vInsert x (vSort xs)

/-- Keep the first occurrence of each value. -/
def pyDedupVals (vs : List Value) : List Value :=
  vs.foldl (fun acc v => if acc.contains v then acc else acc ++ [v]) []

/-- Atom of a cell; aggregated cells never serve as group material in the
embedded program. -/
def atomOf : Value → VAtom
  | .a x => x
  | .lst _ => .na

/-- Grouped aggregation df.groupby(key)[col].apply(list).to_list(): NaN
keys are dropped, the remaining distinct keys are sorted, and each yields
the list of col cells of its rows in order. -/
def DataFrame.groupbyApplyList (df : DataFrame) (key col : String) :
    Except CoaErr (List Value) :=
  match df.colIdx key, df.colIdx col with
  | some ki, some ci =>
    let keys := (pyDedupVals (df.rows.map (fun r => rowCell r ki))).filter
      (fun k => k ≠ Value.a .na)
    let keys := vSort keys
    .ok (keys.map (fun k =>
      Value.lst ((df.rows.filter (fun r => rowCell r ki == k)).map
        (fun r => atomOf (rowCell r ci)))))
  | _, _ => .error (.keyError "groupby column not found")

/- ------------------------------------------------------------------ -/
/- Heap of frame objects (Python aliasing)                            -/
/- ------------------------------------------------------------------ -/

/-- Store of live frame objects; a Python variable holding a frame is an
index into the store, so that in-place updates through one variable are
observable through every alias. -/
def Heap := List DataFrame

/-- Object lookup by reference. -/
def Heap.get (h : Heap) (i : Nat) : Option DataFrame :=
  List.get? h i

/-- In-place update of the object a reference designates. -/
def Heap.setAt (h : Heap) (i : Nat) (df : DataFrame) : Heap :=
  List.set h i df

/-- Allocation of a fresh object, returning its reference. -/
def Heap.alloc (h : Heap) (df : DataFrame) : Heap × Nat :=
  (List.append h [df], List.length h)

/- ------------------------------------------------------------------ -/
/- GeoManager                                                         -/
/- ------------------------------------------------------------------ -/

/-- GeoManager state: the current standard and the owned GeoRegion. -/
structure GeoManager where
  standard : String
  gr : GeoRegion

/-- Supported country-name standards, first one is the class default. -/
def GeoManager.list_standard : List String :=
  ["iso2", "iso3", "name", "num"]

/-- Supported source databases, first one (no database) is the default. -/
def GeoManager.list_db : List (Option String) :=
  [none, some "jhu", some "worldometers", some "owid"]

/-- Supported output types, first one is the default. -/
def GeoManager.list_output : List String :=
  ["list", "dict", "pandas"]

/-- The set_standard member function: the requested standard must belong
to the supported list (the isinstance check on the argument is subsumed
by the Lean type). -/
def GeoManager.set_standard (gm : GeoManager) (standard : String) :
    Except CoaErr GeoManager :=
  if standard ∉ GeoManager.list_standard then
    .error (.keyError ("GeoManager.set_standard error, \"" ++ standard ++
      " not managed. Please see get_list_standard() function"))
  else .ok { gm with standard := standard }

/-- Per-database hand-curated override table of first_db_translation for
the jhu database, keys in title case as in the source. -/
def jhu_translation : List (String × String) :=
  [("Congo (Brazzaville)", "Republic of the Congo"),
   ("Congo (Kinshasa)", "COD"),
   ("Korea, South", "KOR"),
   ("Taiwan*", "Taiwan"),
   ("Laos", "LAO"),
   ("West Bank And Gaza", "PSE"),
   ("Burma", "Myanmar"),
   ("Iran", "IRN"),
   ("Diamond Princess", ""),
   ("Ms Zaandam", "")]

/-- Per-database override table for the worldometers database. -/
def worldometers_translation : List (String × String) :=
  [("Dr Congo", "COD"),
   ("Congo", "COG"),
   ("Iran", "IRN"),
   ("South Korea", "KOR"),
   ("North Korea", "PRK"),
   ("Czech Republic (Czechia)", "CZE"),
   ("Laos", "LAO"),
   ("Sao Tome & Principe", "STP"),
   ("Channel Islands", "JEY"),
   ("St. Vincent & Grenadines", "VCT"),
   ("U.S. Virgin Islands", "VIR"),
   ("Saint Kitts & Nevis", "KNA"),
   ("Faeroe Islands", "FRO"),
   ("Caribbean Netherlands", "BES"),
   ("Wallis & Futuna", "WLF"),
   ("Saint Pierre & Miquelon", "SPM"),
   ("Sint Maarten", "SXM")]

/-- Per-database override table for the owid database. -/
def owid_translation : List (String × String) :=
  [("Bonaire Sint Eustatius And Saba", "BES"),
   ("Cape Verde", "CPV"),
   ("Democratic Republic Of Congo", "COD"),
   ("Faeroe Islands", "FRO"),
   ("Laos", "LAO"),
   ("South Korea", "KOR"),
   ("Swaziland", "SWZ"),
   ("United States Virgin Islands", "VIR"),
   ("Iran", "IRN")]

/-- Python dict.get(k, k) over an association list. -/
def pyDictGetOr (d : List (String × String)) (k : String) : String :=
  match d.find? (fun p => p.1 = k) with
  | some p => p.2
  | none => k

/-- The first_db_translation member function: each name passes through
the override table of the selected database, absent entries unchanged. -/
def first_db_translation (w : List String) (db : String) : List String :=
  let translation_dict :=
    if db = "jhu" then jhu_translation
    else if db = "worldometers" then worldometers_translation
    else if db = "owid" then owid_translation
    else []
  w.map (pyDictGetOr translation_dict)

/-- A Python value handed to to_standard inside the location list. -/
inductive PyVal where
  | pystr (s : String)
  | pyint (n : Int)
  | pyother
deriving DecidableEq, Repr

/-- The first argument of to_standard: a bare string or a list (any
other Python type raises a CoaTypeError, subsumed here by the type). -/
inductive TSIn where
  | str (s : String)
  | list (l : List PyVal)

/-- Result shape of to_standard for the three output options. -/
inductive TSOut where
  | list (l : List String)
  | dict (l : List (String × String))
  | pandas (df : DataFrame)
deriving DecidableEq, Repr

/-- Projection of a catalogue record to the current standard, the final
step of the country branch of the to_standard loop. -/
def ts_project (std : String) (r : CountryRecord) : Except CoaErr String :=
  if std = "iso2" then .ok r.alpha_2
  else if std = "iso3" then .ok r.alpha_3
  else if std = "name" then .ok r.name
  else if std = "num" then .ok r.numeric
  else .error (.keyError ("Current standard is " ++ std ++
    " which is not managed. Error."))

/-- Warning text emitted when the fuzzy search returns several
candidates, built exactly as the source builds it. -/
def fuzzy_warning_message (c : String) (nf : List CountryRecord) : String :=
  "Caution. More than one country match the key \"" ++ c ++ "\" : " ++
    pyStrList (nf.map (fun k => k.name ++ ", ")) ++ ", using first one.\n"

/-- Python str.title applied to every element of the location list, the
first processing step of to_standard; an integer (or any non-string)
element makes Python raise an AttributeError at this point, before the
loop that would have coerced integers to strings. -/
def pyTitleAll : List PyVal → Except CoaErr (List String)
  | [] => .ok []
  | .pystr s :: vs =>
    match pyTitleAll vs with
    | .ok l => .ok (pyTitle s :: l)
    | .error e => .error e
  | .pyint _ :: _ => .error (.pyAttributeError "int object has no attribute title")
  | .pyother :: _ => .error (.pyAttributeError "object has no attribute title")

/-- Work-queue loop of to_standard: the head of the queue is popped; a
known region name under region interpretation is replaced in front of
the queue by its member list; otherwise an empty string standardizes to
an empty value and a non-empty one is looked up exactly, then fuzzily
with a warning when several candidates tie, failing with a lookup error
when nothing matches; the winning record is projected to the standard.
Fuel makes the data-dependent termination explicit; the integer branch
of the source loop is unreachable because the title step above has
already rejected every non-string. -/
def ts_loop (std : String) (gr : GeoRegion) (cat : Catalogue) (ir : Bool) :
    Nat → List String → List String → List String →
    Except CoaErr (List String × List String)
  | _, [], n, ws => .ok (n, ws)
  | 0, _ :: _, _, _ => .error .noFuel
  | fuel + 1, c :: rest, n, ws =>
    if c ∈ gr.get_region_list ∧ ir then
      match gr.get_countries_from_region c with
      | .error e => .error e
      | .ok members => ts_loop std gr cat ir fuel (members ++ rest) n ws
    else if c = "" then
      ts_loop std gr cat ir fuel rest (n ++ [""]) ws
    else
      let found : Except CoaErr (CountryRecord × List String) :=
        match pc_lookup cat.records c with
        | some r => .ok (r, ws)
        | none =>
          match cat.fuzzy c with
          | [] => .error (.lookupError ("No country match the key \"" ++ c ++
              "\". Error."))
          | r :: rs =>
            .ok (r, if rs.isEmpty then ws
              else ws ++ [fuzzy_warning_message c (r :: rs)])
      match found with
      | .error e => .error e
      | .ok (r, ws2) =>
        match ts_project std r with
        | .error e => .error e
        | .ok n1 => ts_loop std gr cat ir fuel rest (n ++ [n1]) ws2

/-- The to_standard member function. Validation happens first: unknown
output type, unknown database, and region interpretation combined with a
non-list output each raise before any processing (the isinstance checks
on interpret_region and on the input are subsumed by the Lean types).
Then every element is title-cased, the database override is applied when
a database is selected, the work queue is processed, and the result is
shaped as a list, a dict zipped against the titled originals, or a
two-column frame. The returned pair carries the emitted warnings. -/
def GeoManager.to_standard (gm : GeoManager) (cat : Catalogue) (fuel : Nat)
    (w : TSIn) (output : String) (db : Option String) (interpret_region : Bool) :
    Except CoaErr (TSOut × List String) :=
  if output ∉ GeoManager.list_output then
    .error (.keyError "Incorrect output type. See get_list_output() or help.")
  else if db ∉ GeoManager.list_db then
    .error (.dbError ("Unknown database \"" ++ db.getD "" ++
      "\" for translation to standardized location names. See get_list_db() or help."))
  else if interpret_region = true ∧ output ≠ "list" then
    .error (.keyError "The interpret_region True argument is incompatible with non list output option.")
  else
    let w1 : List PyVal := match w with | .str s => [.pystr s] | .list l => l
    match pyTitleAll w1 with
    | .error e => .error e
    | .ok w2 =>
      let w0 := w2
      let w3 := match db with
        | some dbname => first_db_translation w2 dbname
        | none => w2
      match ts_loop gm.standard gm.gr cat interpret_region fuel w3 [] [] with
      | .error e => .error e
      | .ok (n, ws) =>
        if output = "list" then .ok (.list n, ws)
        else if output = "dict" then .ok (.dict (pyDictZipStr [] w0 n), ws)
        else .ok (.pandas ⟨["inputname", gm.standard],
          (w0.zip n).map (fun p => [.a (.vs p.1), .a (.vs p.2)])⟩, ws)

/- ------------------------------------------------------------------ -/
/- GeoInfo                                                            -/
/- ------------------------------------------------------------------ -/

/-- Supported additional fields with the documented source of each, in
source order. -/
def GeoInfo.list_field : List (String × String) :=
  [("continent_code", "pycountry_convert (https://pypi.org/project/pycountry-convert/)"),
   ("continent_name", "pycountry_convert (https://pypi.org/project/pycountry-convert/)"),
   ("country_name", "pycountry_convert (https://pypi.org/project/pycountry-convert/)"),
   ("population", "https://www.worldometers.info/world-population/population-by-country/"),
   ("area", "https://www.worldometers.info/world-population/population-by-country/"),
   ("fertility", "https://www.worldometers.info/world-population/population-by-country/"),
   ("median_age", "https://www.worldometers.info/world-population/population-by-country/"),
   ("urban_rate", "https://www.worldometers.info/world-population/population-by-country/"),
   ("geometry", "http://thematicmapping.org/downloads/world_borders.php and https://github.com/johan/world.geo.json/"),
   ("region_code_list", "https://en.wikipedia.org/wiki/List_of_countries_by_United_Nations_geoscheme"),
   ("region_name_list", "https://en.wikipedia.org/wiki/List_of_countries_by_United_Nations_geoscheme"),
   ("capital", "https://en.wikipedia.org/wiki/List_of_countries_by_United_Nations_geoscheme"),
   ("flag", "https://github.com/linssen/country-flag-icons/blob/master/countries.json")]

/-- The get_list_field member function: the supported field names,
sorted. -/
def GeoInfo.get_list_field : List String :=
  pySortStrings (GeoInfo.list_field.map (fun p => p.1))

/-- Class-level cached reference tables of GeoInfo; each starts as an
empty frame and is filled by the first field request that needs it. -/
structure GeoInfoState where
  data_population : DataFrame
  data_geometry : DataFrame
  data_flag : DataFrame
deriving DecidableEq, Repr

/-- External collaborators of add_field, beyond the country catalogue:
the pycountry-convert mappings and the raw content of the three fetched
reference sources. Modelled from the spec: these live outside the
repository, so their behaviour and content are parameters. -/
structure GeoInfoExt where
  cat : Catalogue
  continent_code_of_iso2 : String → Except CoaErr String
  continent_name_of_code : String → Except CoaErr String
  country_name_of_iso2 : String → Except CoaErr String
  pop_raw : DataFrame
  geometry_fetched : DataFrame
  flag_raw : DataFrame

/-- Column descriptor tuples of the population branch: position in the
fetched table, expected column-name start, new field name. -/
def field_descr : List (Nat × String × String) :=
  [(0, "", "idx"), (1, "Country", "country"), (2, "Population", "population"),
   (6, "Land Area", "area"), (8, "Fert", "fertility"), (9, "Med", "median_age"),
   (10, "Urban", "urban_rate")]

/-- Conversion of a frame cell to the Python value its tolist() yields,
as handed to to_standard. -/
def cellToPy : Value → PyVal
  | .a (.vs s) => .pystr s
  | .a (.vi n) => .pyint n
  | _ => .pyother

/-- Schema-drift guard of the population branch: each fetched column
name must start with the expected text, in order; a missing descriptor
is the IndexError Python would raise. -/
def checkPopCols (cols : List String) : Except CoaErr Bool :=
  (List.range cols.length).foldlM (fun acc i => do
    match cols.get? i, field_descr.get? i with
    | some c, some d => pure (acc && c.startsWith d.2.1)
    | _, none => .error (.pyValueError "list index out of range")
    | none, _ => .error (.pyValueError "list index out of range")) true

/-- Fetch-and-prepare of the worldometers population table: positional
column selection, schema-drift guard, renaming, and standardization of
the country column to iso3 through the worldometers override database.
The warnings the inner to_standard may emit go to the console and are
dropped here. -/
def fetch_population (ext : GeoInfoExt) (gm : GeoManager) (fuel : Nat) :
    Except CoaErr DataFrame := do
  let sel ← ext.pop_raw.ilocCols (field_descr.map (fun d => d.1))
  let ok ← checkPopCols sel.cols
  if !ok then
    .error (.dbError "The worldometers database changed its field names. The GeoInfo should be updated. Please contact developers.")
  else
    let renamed : DataFrame := ⟨field_descr.map (fun d => d.2.2), sel.rows⟩
    let countries ← renamed.getColE "country"
    match gm.to_standard ext.cat fuel (.list (countries.map cellToPy)) "list"
        (some "worldometers") false with
    | .error e => .error e
    | .ok (.list l, _) => renamed.setCol "iso3_tmp2" (l.map (fun s => Value.a (.vs s)))
    | .ok _ => .error (.pyValueError "unreachable output shape")

/-- Effect of one field branch on the local frame variable p: either an
in-place column assignment from a plain list (strict length), an
in-place column assignment from a pandas Series (index aligned), or a
rebinding of p to a freshly built frame. -/
inductive FieldEffect where
  | assignL (col : String) (vals : List Value)
  | assignS (col : String) (vals : List Value)
  | replace (df : DataFrame)

/-- Dispatch over one requested field, computing the branch effect and
the updated cache state from the current frame p and the two canonical
code columns; mirrors the if-chain of the source loop. -/
def process_field (ext : GeoInfoExt) (gm : GeoManager) (grp : DataFrame)
    (fuel : Nat) (f : String) (p : DataFrame) (st : GeoInfoState)
    (iso2l _iso3l : List String) : GeoInfoState × Except CoaErr FieldEffect :=
  if f = "continent_code" then
    match iso2l.mapM ext.continent_code_of_iso2 with
    | .error e => (st, .error e)
    | .ok vals => (st, .ok (.assignL f (vals.map (fun s => Value.a (.vs s)))))
  else if f = "continent_name" then
    match iso2l.mapM (fun k => do
        let cc ← ext.continent_code_of_iso2 k
        ext.continent_name_of_code cc) with
    | .error e => (st, .error e)
    | .ok vals => (st, .ok (.assignL f (vals.map (fun s => Value.a (.vs s)))))
  else if f = "country_name" then
    match iso2l.mapM ext.country_name_of_iso2 with
    | .error e => (st, .error e)
    | .ok vals => (st, .ok (.assignL f (vals.map (fun s => Value.a (.vs s)))))
  else if f ∈ ["population", "area", "fertility", "median_age", "urban_rate"] then
    let fetched : GeoInfoState × Except CoaErr DataFrame :=
      if st.data_population.pempty then
        match fetch_population ext gm fuel with
        | .error e => (st, .error e)
        | .ok dp => ({ st with data_population := dp }, .ok dp)
      else (st, .ok st.data_population)
    match fetched with
    | (st1, .error e) => (st1, .error e)
    | (st1, .ok dp) =>
      (st1, do
        let sel ← dp.select ["iso3_tmp2", f]
        let merged ← p.mergeLeft sel "iso3_tmp" "iso3_tmp2" "" "_tmp"
        let merged2 ← merged.dropCol "iso3_tmp2" false
        pure (.replace merged2))
  else if f ∈ ["region_code_list", "region_name_list"] then
    let ff := if f = "region_code_list" then "region" else "region_name"
    (st, do
      let selgrp ← grp.select ["iso3", ff]
      let merged ← p.mergeLeft selgrp "iso3_tmp" "iso3" "" "_tmp"
      let vals ← merged.groupbyApplyList "iso3_tmp" ff
      pure (.assignL f vals))
  else if f = "capital" then
    (st, do
      let selgrp ← grp.select ["iso3", f]
      let merged ← p.mergeLeft selgrp.dropDuplicates "iso3_tmp" "iso3" "" "_tmp"
      let vals ← merged.getColE f
      pure (.assignS f vals))
  else if f = "geometry" then
    let st1 := if st.data_geometry.pempty then
        { st with data_geometry := ext.geometry_fetched }
      else st
    (st1, do
      let merged ← p.mergeLeft st1.data_geometry "iso3_tmp" "id_tmp" "" "_tmp"
      let merged2 ← merged.dropCol "id_tmp" false
      pure (.replace merged2))
  else if f = "flag" then
    let prepared : GeoInfoState × Except CoaErr DataFrame :=
      if st.data_flag.pempty then
        match ((do
            let urls ← ext.flag_raw.getColE "file_url"
            ext.flag_raw.setCol "flag_url" (urls.map (fun v =>
              match v with
              | .a (.vs s) => Value.a (.vs ("http:" ++ s))
              | x => x))) : Except CoaErr DataFrame) with
        | .error e => (st, .error e)
        | .ok fr => ({ st with data_flag := fr }, .ok fr)
      else (st, .ok st.data_flag)
    match prepared with
    | (st1, .error e) => (st1, .error e)
    | (st1, .ok fr) =>
      (st1, do
        let sel ← fr.select ["alpha3", "flag_url"]
        let merged ← p.mergeLeft sel "iso3_tmp" "alpha3" "_x" "_y"
        let merged2 ← merged.dropCol "alpha3" false
        pure (.replace merged2))
  else (st, .error (.keyError "unreachable field after validation"))

/-- Application of a branch effect on the heap: in-place assignments
write the object the local variable p designates, a rebinding allocates
a fresh object and moves the reference. -/
def apply_effect (h : Heap) (pid : Nat) (eff : FieldEffect) :
    Except CoaErr (Heap × Nat) :=
  match eff with
  | .assignL c vals =>
    match h.get pid with
    | some p => do
      let p2 ← p.setCol c vals
      pure (h.setAt pid p2, pid)
    | none => .error (.pyValueError "dangling frame reference")
  | .assignS c vals =>
    match h.get pid with
    | some p => .ok (h.setAt pid (p.setColSeries c vals), pid)
    | none => .error (.pyValueError "dangling frame reference")
  | .replace df =>
    let al := h.alloc df
    .ok (al.1, al.2)

/-- Head step of each loop iteration: a pre-existing column with the
requested field name is dropped, rebinding p to the freshly allocated
dropped copy. -/
def af_drop_step (f : String) (h : Heap) (pid : Nat) (p : DataFrame) :
    Except CoaErr (Heap × Nat × DataFrame) :=
  if p.cols.contains f then
    match p.dropCol f false with
    | .ok p2 =>
      let al := h.alloc p2
      .ok (al.1, al.2, p2)
    | .error e => .error e
  else .ok (h, pid, p)

/-- Source loop over the requested fields: each iteration first drops a
pre-existing column of that name (rebinding p to the dropped copy), then
computes and applies the branch effect; the cache state is kept even
when an error escapes, exactly as the Python class attributes would be. -/
def af_loop (ext : GeoInfoExt) (gm : GeoManager) (grp : DataFrame) (fuel : Nat)
    (iso2l iso3l : List String) :
    List String → Heap → Nat → GeoInfoState →
    Heap × GeoInfoState × Except CoaErr Nat
  | [], h, pid, st => (h, st, .ok pid)
  | f :: rest, h, pid, st =>
    match h.get pid with
    | none => (h, st, .error (.pyValueError "dangling frame reference"))
    | some p =>
      match af_drop_step f h pid p with
      | .error e => (h, st, .error e)
      | .ok (h1, pid1, p1) =>
        match process_field ext gm grp fuel f p1 st iso2l iso3l with
        | (st1, .error e) => (h1, st1, .error e)
        | (st1, .ok eff) =>
          match apply_effect h1 pid1 eff with
          | .error e => (h1, st1, .error e)
          | .ok (h2, pid2) => af_loop ext gm grp fuel iso2l iso3l rest h2 pid2 st1

/-- Tail of add_field after the field loop: the resulting frame is read
back, the two temporary code columns are dropped (missing ones ignored)
and the final frame is allocated as the returned object. -/
def af_finish (h3 : Heap) (st3 : GeoInfoState) (res : Except CoaErr Nat) :
    Heap × GeoInfoState × Except CoaErr Nat :=
  match res with
  | .error e => (h3, st3, .error e)
  | .ok pid3 =>
    match h3.get pid3 with
    | none => (h3, st3, .error (.pyValueError "dangling frame reference"))
    | some pf =>
      match pf.dropCols ["iso2_tmp", "iso3_tmp"] true with
      | .error e => (h3, st3, .error e)
      | .ok pr =>
        let al2 := h3.alloc pr
        (al2.1, st3, .ok al2.2)

/-- The add_field member function of GeoInfo, on the heap of frame
objects. The caller passes a reference to its frame; the function copies
it (the copy is a fresh object), validates the requested fields, the
duplicate-column condition and the geofield, computes the iso2 and iso3
canonical codes through the owned GeoManager, stores them as two
temporary columns of the copy, runs the field loop and finally drops the
temporary columns, returning a reference to the result. The cache state
is returned in every outcome; the isinstance guards of the source are
subsumed by the Lean types. -/
def GeoInfo.add_field (st : GeoInfoState) (grp : DataFrame) (gm : GeoManager)
    (ext : GeoInfoExt) (fuel : Nat) (h : Heap) (inputId : Nat)
    (field : List String) (geofield : String) (overload : Bool) :
    Heap × GeoInfoState × Except CoaErr Nat :=
  match h.get inputId with
  | none => (h, st, .error (.pyValueError "dangling input reference"))
  | some p0 =>
    let al := h.alloc p0
    let h1 := al.1
    let pid := al.2
    if ¬ field.all (fun f => GeoInfo.get_list_field.contains f) then
      (h1, st, .error (.keyError "All fields are not valid or supported ones. Please see help of get_list_field()"))
    else if ¬ overload ∧ ¬ field.all (fun f => ¬ p0.cols.contains f) then
      (h1, st, .error (.keyError "Some fields already exist in you panda dataframe columns. You may set overload to True."))
    else if ¬ p0.cols.contains geofield then
      (h1, st, .error (.keyError ("The geofield \"" ++ geofield ++
        "\" given is not a valid column name of the input pandas dataframe.")))
    else
      match gm.set_standard "iso2" with
      | .error e => (h1, st, .error e)
      | .ok gm2 =>
        match (do
            let locs ← p0.getColE geofield
            gm2.to_standard ext.cat fuel (.list (locs.map cellToPy)) "list" none false) with
        | .error e => (h1, st, .error e)
        | .ok (out2, _) =>
          match gm2.set_standard "iso3" with
          | .error e => (h1, st, .error e)
          | .ok gm3 =>
            match (do
                let locs ← p0.getColE geofield
                gm3.to_standard ext.cat fuel (.list (locs.map cellToPy)) "list" none false) with
            | .error e => (h1, st, .error e)
            | .ok (out3, _) =>
              match out2, out3 with
              | .list iso2l, .list iso3l =>
                match (do
                    let p1 ← p0.setCol "iso2_tmp" (iso2l.map (fun s => Value.a (.vs s)))
                    p1.setCol "iso3_tmp" (iso3l.map (fun s => Value.a (.vs s)))) with
                | .error e => (h1, st, .error e)
                | .ok p2 =>
                  let h2 := h1.setAt pid p2
                  match af_loop ext gm3 grp fuel iso2l iso3l field h2 pid st with
                  | (h3, st3, res) => af_finish h3 st3 res
              | _, _ => (h1, st, .error (.pyValueError "unreachable output shape"))

/- ------------------------------------------------------------------ -/
/- Shared concrete sample objects                                     -/
/- ------------------------------------------------------------------ -/

/-- GeoRegion state obtained from empty fetched tables: the region
dictionary holds exactly the six hardcoded entries. -/
def gr0 : GeoRegion := ⟨region_fixed_pairs, []⟩

/-- Catalogue carrying no record at all, with a fuzzy search that never
matches. -/
def catEmpty : Catalogue := ⟨[], fun _ => []⟩

/-- Realistic sample catalogue covering the seven G7 member countries
with their actual ISO 3166 codes; its fuzzy search resolves the
hardcoded G7 entry JAP (which is not an ISO3 code) to Japan, the way the
real approximate search does. -/
def cat7 : Catalogue :=
  { records :=
      [⟨"CA", "CAN", "Canada", "124"⟩,
       ⟨"DE", "DEU", "Germany", "276"⟩,
       ⟨"FR", "FRA", "France", "250"⟩,
       ⟨"GB", "GBR", "United Kingdom", "826"⟩,
       ⟨"IT", "ITA", "Italy", "380"⟩,
       ⟨"JP", "JPN", "Japan", "392"⟩,
       ⟨"US", "USA", "United States", "840"⟩],
    fuzzy := fun q => if q = "JAP" then [⟨"JP", "JPN", "Japan", "392"⟩] else [] }

/-- Degenerate catalogue whose records carry each hardcoded G7 member
code as an iso3 code, so that every member resolves to itself under the
iso3 standard. -/
def catG7id : Catalogue :=
  { records :=
      [⟨"CA", "CAN", "Canada", "124"⟩,
       ⟨"DE", "DEU", "Germany", "276"⟩,
       ⟨"FR", "FRA", "France", "250"⟩,
       ⟨"GB", "GBR", "United Kingdom", "826"⟩,
       ⟨"IT", "ITA", "Italy", "380"⟩,
       ⟨"JA", "JAP", "Japan", "392"⟩,
       ⟨"US", "USA", "United States", "840"⟩],
    fuzzy := fun _ => [] }

/-- M49 sample table in which two distinct region codes carry the same
display name once the parenthetical annotation is stripped. -/
def m49dup : List (Int × String) := [(1, "Foo (a)"), (2, "Foo (b)")]

/-- Geoscheme sample table with a single country belonging to both
sample region codes. -/
def gsdup : List GSRawRow := [⟨"X", "Xcap", "AA", "AAA", "4", "1<2"⟩]

/-- GeoRegion state the constructor builds from the two sample tables. -/
def grDup : GeoRegion :=
  ⟨[(.ik 1, "Foo"), (.ik 2, "Foo")] ++ region_fixed_pairs,
   [⟨"AAA", "Xcap", 1, some "Foo"⟩, ⟨"AAA", "Xcap", 2, some "Foo"⟩]⟩

/- ------------------------------------------------------------------ -/
/- Helper lemmas                                                      -/
/- ------------------------------------------------------------------ -/

/-- Title-casing a whole list succeeds exactly on all-string input and
preserves length. -/
theorem pyTitleAll_length (w : List PyVal) (l : List String)
    (h : pyTitleAll w = .ok l) : l.length = w.length := by
  induction w generalizing l with
  | nil =>
    simp [pyTitleAll] at h
    simp [← h]
  | cons v vs ih =>
    cases v with
    | pystr s =>
      simp only [pyTitleAll] at h
      cases hm : pyTitleAll vs with
      | error e => rw [hm] at h; simp at h
      | ok tl =>
        rw [hm] at h
        simp only [Except.ok.injEq] at h
        have := ih tl hm
        simp [← h, this]
    | pyint n => simp [pyTitleAll] at h
    | pyother => simp [pyTitleAll] at h

/-- The work queue without region interpretation appends exactly one
standardized value per queue element. -/
theorem ts_loop_length_no_ir (std : String) (gr : GeoRegion) (cat : Catalogue)
    (fuel : Nat) (w n ws l ws2 : List String)
    (h : ts_loop std gr cat false fuel w n ws = .ok (l, ws2)) :
    l.length = n.length + w.length := by
  induction fuel generalizing w n ws ws2 with
  | zero =>
    cases w with
    | nil => simp [ts_loop] at h; simp [← h.1]
    | cons c rest => simp [ts_loop] at h
  | succ fuel ih =>
    cases w with
    | nil => simp [ts_loop] at h; simp [← h.1]
    | cons c rest =>
      simp only [ts_loop] at h
      rw [if_neg (by simp)] at h
      by_cases hc : c = ""
      · rw [if_pos hc] at h
        have := ih rest (n ++ [""]) ws ws2 h
        simp at this
        simp [this]
        omega
      · rw [if_neg hc] at h
        cases hl : pc_lookup cat.records c with
        | some r =>
          rw [hl] at h
          simp only at h
          cases hp : ts_project std r with
          | error e => rw [hp] at h; simp at h
          | ok v =>
            rw [hp] at h
            simp only at h
            have := ih rest (n ++ [v]) ws ws2 h
            simp at this
            simp [this]
            omega
        | none =>
          rw [hl] at h
          cases hf : cat.fuzzy c with
          | nil => rw [hf] at h; simp at h
          | cons r rs =>
            rw [hf] at h
            simp only at h
            cases hp : ts_project std r with
            | error e => rw [hp] at h; simp at h
            | ok v =>
              rw [hp] at h
              simp only at h
              have := ih rest (n ++ [v]) _ ws2 h
              simp at this
              simp [this]
              omega

/-- Without region interpretation, a list-shaped to_standard result has
one standardized value per input element. -/
theorem to_standard_list_length (gm : GeoManager) (cat : Catalogue) (fuel : Nat)
    (xs : List PyVal) (db : Option String) (n ws : List String)
    (h : gm.to_standard cat fuel (.list xs) "list" db false = .ok (.list n, ws)) :
    n.length = xs.length := by
  simp only [GeoManager.to_standard] at h
  rw [if_neg (by decide)] at h
  by_cases hdb : db ∈ GeoManager.list_db
  · rw [if_neg (not_not_intro hdb), if_neg (by simp)] at h
    cases ht : pyTitleAll xs with
    | error e => rw [ht] at h; simp at h
    | ok w2 =>
      rw [ht] at h
      simp only at h
      have hw2 : w2.length = xs.length := pyTitleAll_length xs w2 ht
      cases db with
      | none =>
        simp only at h
        cases hl : ts_loop gm.standard gm.gr cat false fuel w2 [] [] with
        | error e => rw [hl] at h; simp at h
        | ok p =>
          rw [hl] at h
          obtain ⟨l2, ws2⟩ := p
          simp only [if_true, reduceIte] at h
          have := ts_loop_length_no_ir gm.standard gm.gr cat fuel w2 [] [] l2 ws2 hl
          simp only [Except.ok.injEq, Prod.mk.injEq, TSOut.list.injEq] at h
          rw [← h.1]
          simpa [hw2] using this
      | some dbname =>
        simp only at h
        cases hl : ts_loop gm.standard gm.gr cat false fuel
            (first_db_translation w2 dbname) [] [] with
        | error e => rw [hl] at h; simp at h
        | ok p =>
          rw [hl] at h
          obtain ⟨l2, ws2⟩ := p
          simp only [if_true, reduceIte] at h
          have := ts_loop_length_no_ir gm.standard gm.gr cat fuel _ [] [] l2 ws2 hl
          simp only [Except.ok.injEq, Prod.mk.injEq, TSOut.list.injEq] at h
          have hfl : (first_db_translation w2 dbname).length = w2.length := by
            simp [first_db_translation]
          rw [← h.1]
          simpa [hfl, hw2] using this
  · rw [if_pos hdb] at h
    simp at h

/- ------------------------------------------------------------------ -/
/- C9                                                                 -/
/- ------------------------------------------------------------------ -/

/-- C9: for every standard (and in particular every supported one),
passing the empty string to to_standard with the default options yields
a single empty canonical value, no warning and no error. -/
theorem to_standard_empty_string (gm : GeoManager) (cat : Catalogue) (fuel : Nat) :
    gm.to_standard cat (fuel + 1) (.str "") "list" none false =
      .ok (.list [""], []) := by
  have h1 : pyTitleAll [PyVal.pystr ""] = .ok [""] := rfl
  have h2 : ts_loop gm.standard gm.gr cat false (fuel + 1) [""] [] [] =
      .ok ([""], []) := by
    simp only [ts_loop]
    rw [if_neg (by simp)]
    simp [ts_loop]
  simp only [GeoManager.to_standard]
  rw [if_neg (by decide), if_neg (by decide), if_neg (by simp)]
  simp only [h1, h2]
  rfl

/- ------------------------------------------------------------------ -/
/- C2                                                                 -/
/- ------------------------------------------------------------------ -/

/-- C2 (code_bug evidence): an integer element of the location list is
never coerced to a string, because the title-casing step that precedes
the loop calls the title method on it and Python raises an
AttributeError there; the integer-coercion branch of the loop is
unreachable. Evaluated at the failing input [250], with any manager,
catalogue and fuel. -/
theorem to_standard_int_raises_attribute_error (gm : GeoManager)
    (cat : Catalogue) (fuel : Nat) :
    gm.to_standard cat fuel (.list [.pyint 250]) "list" none false =
      .error (.pyAttributeError "int object has no attribute title") := by
  simp only [GeoManager.to_standard]
  rw [if_neg (by decide), if_neg (by decide), if_neg (by simp)]
  simp [pyTitleAll]

/- ------------------------------------------------------------------ -/
/- C3                                                                 -/
/- ------------------------------------------------------------------ -/

/-- C3 counterexample: an unknown source database makes to_standard fail
with a CoaDbError, which is neither the InvalidKey nor the InvalidType
error the claim announces; evaluated at db foo with fuel 0, showing the
failure precedes any lookup or expansion work. -/
theorem to_standard_unknown_db_raises_db_error :
    GeoManager.to_standard ⟨"iso2", gr0⟩ catEmpty 0 (.str "France") "list"
        (some "foo") false =
      .error (.dbError "Unknown database \"foo\" for translation to standardized location names. See get_list_db() or help.") := by
  rfl

/-- C3 (amended): an unknown output format fails with a key error, an
unknown source database fails with a database error, and region
interpretation combined with a non-list output fails with a key error;
each failure is produced before any lookup or expansion, as witnessed by
the result being independent of the input, the catalogue and the fuel. -/
theorem to_standard_validation_errors (gm : GeoManager) (cat : Catalogue)
    (fuel : Nat) (w : TSIn) (output : String) (db : Option String) (ir : Bool) :
    (output ∉ GeoManager.list_output →
      gm.to_standard cat fuel w output db ir =
        .error (.keyError "Incorrect output type. See get_list_output() or help.")) ∧
    (∀ s, output ∈ GeoManager.list_output → db = some s →
      db ∉ GeoManager.list_db →
      gm.to_standard cat fuel w output db ir =
        .error (.dbError ("Unknown database \"" ++ s ++
          "\" for translation to standardized location names. See get_list_db() or help."))) ∧
    (output ∈ GeoManager.list_output → db ∈ GeoManager.list_db → ir = true →
      output ≠ "list" →
      gm.to_standard cat fuel w output db ir =
        .error (.keyError "The interpret_region True argument is incompatible with non list output option.")) := by
  refine ⟨fun h1 => ?_, fun s h1 h2 h3 => ?_, fun h1 h2 h3 h4 => ?_⟩
  · simp only [GeoManager.to_standard]
    rw [if_pos h1]
  · simp only [GeoManager.to_standard]
    rw [if_neg (not_not_intro h1), if_pos h3]
    subst h2
    rfl
  · simp only [GeoManager.to_standard]
    rw [if_neg (not_not_intro h1), if_neg (not_not_intro h2), if_pos ⟨h3, h4⟩]

/-- C3 witness: the three validation failures at concrete inputs. -/
theorem to_standard_validation_errors_witness :
    GeoManager.to_standard ⟨"iso2", gr0⟩ catEmpty 0 (.str "x") "table" none false =
      .error (.keyError "Incorrect output type. See get_list_output() or help.") ∧
    GeoManager.to_standard ⟨"iso2", gr0⟩ catEmpty 0 (.str "x") "list" (some "bar") false =
      .error (.dbError "Unknown database \"bar\" for translation to standardized location names. See get_list_db() or help.") ∧
    GeoManager.to_standard ⟨"iso2", gr0⟩ catEmpty 0 (.str "x") "dict" none true =
      .error (.keyError "The interpret_region True argument is incompatible with non list output option.") :=
  ⟨(to_standard_validation_errors ⟨"iso2", gr0⟩ catEmpty 0 (.str "x") "table" none false).1
      (by decide),
   (to_standard_validation_errors ⟨"iso2", gr0⟩ catEmpty 0 (.str "x") "list" (some "bar") false).2.1
      "bar" (by decide) rfl (by decide),
   (to_standard_validation_errors ⟨"iso2", gr0⟩ catEmpty 0 (.str "x") "dict" none true).2.2
      (by decide) (by decide) rfl (by decide)⟩

/-- Projection to any supported standard always succeeds. -/
theorem ts_project_total (std : String) (r : CountryRecord)
    (h : std ∈ GeoManager.list_standard) :
    ∃ v, ts_project std r = .ok v := by
  simp only [GeoManager.list_standard, List.mem_cons, List.mem_singleton,
    List.not_mem_nil, or_false] at h
  rcases h with rfl | rfl | rfl | rfl
  · exact ⟨r.alpha_2, by simp [ts_project]⟩
  · exact ⟨r.alpha_3, by simp [ts_project]⟩
  · exact ⟨r.name, by simp [ts_project]⟩
  · exact ⟨r.numeric, by simp [ts_project]⟩

/-- A single-string list-output call of to_standard reduces to the work
queue loop seeded with the title-cased string. -/
theorem to_standard_str_list (gm : GeoManager) (cat : Catalogue) (fuel : Nat)
    (c : String) (ir : Bool) :
    gm.to_standard cat fuel (.str c) "list" none ir =
      (match ts_loop gm.standard gm.gr cat ir fuel [pyTitle c] [] [] with
       | .error e => .error e
       | .ok (n, ws) => .ok (.list n, ws)) := by
  simp only [GeoManager.to_standard]
  rw [if_neg (by decide), if_neg (by decide), if_neg (by simp)]
  have hT : pyTitleAll [PyVal.pystr c] = .ok [pyTitle c] := rfl
  simp only [hT]
  cases hl : ts_loop gm.standard gm.gr cat ir fuel [pyTitle c] [] [] with
  | error e => rfl
  | ok p =>
    obtain ⟨n, ws⟩ := p
    simp

/- ------------------------------------------------------------------ -/
/- C6                                                                 -/
/- ------------------------------------------------------------------ -/

/-- C6: for a non-empty location string (after title-casing) whose exact
catalogue lookup fails, to_standard falls back to the fuzzy search; an
empty candidate list makes the call fail with a lookup error naming the
unmatched string, while several candidates make it emit one warning
naming every candidate and deterministically standardize the
first-ranked one. -/
theorem to_standard_fuzzy_fallback (gm : GeoManager) (cat : Catalogue)
    (fuel : Nat) (c : String)
    (hs : gm.standard ∈ GeoManager.list_standard)
    (hne : pyTitle c ≠ "")
    (hlk : pc_lookup cat.records (pyTitle c) = none) :
    (cat.fuzzy (pyTitle c) = [] →
      gm.to_standard cat (fuel + 1) (.str c) "list" none false =
        .error (.lookupError ("No country match the key \"" ++ pyTitle c ++
          "\". Error."))) ∧
    (∀ r rs, cat.fuzzy (pyTitle c) = r :: rs → rs ≠ [] →
      ∃ v, ts_project gm.standard r = .ok v ∧
        gm.to_standard cat (fuel + 1) (.str c) "list" none false =
          .ok (.list [v], [fuzzy_warning_message (pyTitle c) (r :: rs)])) := by
  constructor
  · intro hf
    have hloop : ts_loop gm.standard gm.gr cat false (fuel + 1) [pyTitle c] [] [] =
        .error (.lookupError ("No country match the key \"" ++ pyTitle c ++
          "\". Error.")) := by
      simp only [ts_loop]
      rw [if_neg (by simp), if_neg hne, hlk, hf]
    rw [to_standard_str_list, hloop]
  · intro r rs hf hrs
    obtain ⟨v, hv⟩ := ts_project_total gm.standard r hs
    refine ⟨v, hv, ?_⟩
    have hre : rs.isEmpty = false := by
      cases rs with
      | nil => exact absurd rfl hrs
      | cons a as => rfl
    have hloop : ts_loop gm.standard gm.gr cat false (fuel + 1) [pyTitle c] [] [] =
        .ok ([v], [fuzzy_warning_message (pyTitle c) (r :: rs)]) := by
      simp only [ts_loop]
      rw [if_neg (by simp), if_neg hne]
      simp only [hlk, hf, hre, Bool.false_eq_true, if_false, List.nil_append, hv]
    rw [to_standard_str_list, hloop]

/-- C6 witness: at a concrete catalogue, the unmatched string Atlantis
fails with the lookup error, and the ambiguous string Fran is resolved
to the first of the two fuzzy candidates with the warning naming both. -/
theorem to_standard_fuzzy_fallback_witness :
    GeoManager.to_standard ⟨"iso2", gr0⟩ cat7 1 (.str "Atlantis") "list" none false =
      .error (.lookupError "No country match the key \"Atlantis\". Error.") ∧
    GeoManager.to_standard ⟨"iso2", gr0⟩
        ⟨[], fun q => if q = "Fran" then
            [⟨"FR", "FRA", "France", "250"⟩, ⟨"FX", "FRX", "Franceland", "999"⟩]
          else []⟩ 1 (.str "fran") "list" none false =
      .ok (.list ["FR"],
        ["Caution. More than one country match the key \"Fran\" : [\x27France, \x27, \x27Franceland, \x27], using first one.\n"]) := by
  constructor
  · have h := (to_standard_fuzzy_fallback ⟨"iso2", gr0⟩ cat7 0 "Atlantis"
      (by decide) (by decide) (by decide)).1 (by decide)
    simpa using h
  · have h := (to_standard_fuzzy_fallback ⟨"iso2", gr0⟩
      ⟨[], fun q => if q = "Fran" then
          [⟨"FR", "FRA", "France", "250"⟩, ⟨"FX", "FRX", "Franceland", "999"⟩]
        else []⟩ 0 "fran" (by decide) (by decide) (by decide)).2
      ⟨"FR", "FRA", "France", "250"⟩ [⟨"FX", "FRX", "Franceland", "999"⟩]
      (by decide) (by decide)
    obtain ⟨v, hv, hres⟩ := h
    have hv2 : v = "FR" := by
      simpa [ts_project] using hv.symm
    rw [hv2] at hres
    simpa [fuzzy_warning_message, pyStrList] using hres

/- ------------------------------------------------------------------ -/
/- C1                                                                 -/
/- ------------------------------------------------------------------ -/

/-- C1 counterexample: with the default supported standard iso2 and a
realistic catalogue, to_standard G7 under region interpretation returns
the seven member codes projected to iso2, which is not the sorted list
of the seven hardcoded iso3 member codes. -/
theorem to_standard_g7_iso2_not_iso3_codes :
    GeoManager.to_standard ⟨"iso2", gr0⟩ cat7 8 (.str "G7") "list" none true =
      .ok (.list ["CA", "DE", "FR", "GB", "IT", "JP", "US"], []) ∧
    (["CA", "DE", "FR", "GB", "IT", "JP", "US"] : List String) ≠
      pySortStrings g7_clist := by
  constructor
  · decide
  · decide

/-- One work-queue step expanding a known region of the empty-table
region state. -/
theorem ts_loop_region_step (std : String) (cat : Catalogue) (fuel : Nat)
    (c : String) (rest n ws members : List String)
    (hc : c ∈ gr0.get_region_list)
    (hm : gr0.get_countries_from_region c = .ok members) :
    ts_loop std gr0 cat true (fuel + 1) (c :: rest) n ws =
      ts_loop std gr0 cat true fuel (members ++ rest) n ws := by
  simp only [ts_loop]
  rw [if_pos ⟨hc, by trivial⟩, hm]

/-- One work-queue step standardizing, under the iso3 standard, a
country code the catalogue resolves to a record carrying that very code
as iso3. -/
theorem ts_loop_member_step (cat : Catalogue) (fuel : Nat) (m : String)
    (rest n ws : List String) (r : CountryRecord)
    (hm : m ∉ gr0.get_region_list) (hne : m ≠ "")
    (hr : pc_lookup cat.records m = some r) (ha : r.alpha_3 = m) :
    ts_loop "iso3" gr0 cat true (fuel + 1) (m :: rest) n ws =
      ts_loop "iso3" gr0 cat true fuel rest (n ++ [m]) ws := by
  simp only [ts_loop]
  rw [if_neg (by simp [hm]), if_neg hne]
  have hp : ts_project "iso3" r = .ok m := by
    simp [ts_project, ha]
  simp only [hr, hp]

/-- C1 (amended): under region interpretation the G7 input is expanded
to the seven hardcoded member codes sorted by the Python builtin, a list
of length seven without duplicates; each member is then standardized
individually, so the output equals that sorted list exactly when the
current standard is iso3 and the catalogue resolves every member code to
itself (which the actual catalogue does not do for the entry JAP). -/
theorem to_standard_g7_region_expansion (cat : Catalogue) (fuel : Nat)
    (hcat : ∀ m ∈ pySortStrings g7_clist,
      ∃ r, pc_lookup cat.records m = some r ∧ r.alpha_3 = m) :
    GeoManager.to_standard ⟨"iso3", gr0⟩ cat (fuel + 8) (.str "G7") "list" none true =
      .ok (.list (pySortStrings g7_clist), []) ∧
    (pySortStrings g7_clist).length = 7 ∧ (pySortStrings g7_clist).Nodup := by
  have hsort : pySortStrings g7_clist =
      ["CAN", "DEU", "FRA", "GBR", "ITA", "JAP", "USA"] := by decide
  obtain ⟨r1, hr1, ha1⟩ := hcat "CAN" (by decide)
  obtain ⟨r2, hr2, ha2⟩ := hcat "DEU" (by decide)
  obtain ⟨r3, hr3, ha3⟩ := hcat "FRA" (by decide)
  obtain ⟨r4, hr4, ha4⟩ := hcat "GBR" (by decide)
  obtain ⟨r5, hr5, ha5⟩ := hcat "ITA" (by decide)
  obtain ⟨r6, hr6, ha6⟩ := hcat "JAP" (by decide)
  obtain ⟨r7, hr7, ha7⟩ := hcat "USA" (by decide)
  refine ⟨?_, by decide, by decide⟩
  rw [to_standard_str_list]
  have e0 : pyTitle "G7" = "G7" := rfl
  rw [hsort, e0]
  rw [show fuel + 8 = fuel + 7 + 1 from rfl,
    ts_loop_region_step "iso3" cat (fuel + 7) "G7" [] [] []
      ["CAN", "DEU", "FRA", "GBR", "ITA", "JAP", "USA"] (by decide)
      (by rw [show gr0.get_countries_from_region "G7" =
          .ok (pySortStrings g7_clist) from by decide, hsort])]
  simp only [List.append_nil]
  rw [show fuel + 7 = fuel + 6 + 1 from rfl,
    ts_loop_member_step cat (fuel + 6) "CAN" _ _ _ r1 (by decide) (by decide) hr1 ha1]
  rw [show fuel + 6 = fuel + 5 + 1 from rfl,
    ts_loop_member_step cat (fuel + 5) "DEU" _ _ _ r2 (by decide) (by decide) hr2 ha2]
  rw [show fuel + 5 = fuel + 4 + 1 from rfl,
    ts_loop_member_step cat (fuel + 4) "FRA" _ _ _ r3 (by decide) (by decide) hr3 ha3]
  rw [show fuel + 4 = fuel + 3 + 1 from rfl,
    ts_loop_member_step cat (fuel + 3) "GBR" _ _ _ r4 (by decide) (by decide) hr4 ha4]
  rw [show fuel + 3 = fuel + 2 + 1 from rfl,
    ts_loop_member_step cat (fuel + 2) "ITA" _ _ _ r5 (by decide) (by decide) hr5 ha5]
  rw [show fuel + 2 = fuel + 1 + 1 from rfl,
    ts_loop_member_step cat (fuel + 1) "JAP" _ _ _ r6 (by decide) (by decide) hr6 ha6]
  rw [ts_loop_member_step cat fuel "USA" _ _ _ r7 (by decide) (by decide) hr7 ha7]
  cases fuel with
  | zero => rfl
  | succ k => rfl

/-- C1 witness: a catalogue resolving each hardcoded member code to
itself under iso3 satisfies the hypotheses, and the call then returns
the sorted member list. -/
theorem to_standard_g7_region_expansion_witness :
    GeoManager.to_standard ⟨"iso3", gr0⟩ catG7id 8 (.str "G7") "list" none true =
      .ok (.list (pySortStrings g7_clist), []) :=
  (to_standard_g7_region_expansion catG7id 0 (by decide)).1

/- ------------------------------------------------------------------ -/
/- C4                                                                 -/
/- ------------------------------------------------------------------ -/

/-- Adjacent-pair sortedness in the Python string order: no element is
strictly greater than its successor. -/
def isSortedStr : List String → Bool
  | [] => true
  | [_] => true
  | a :: b :: rest => !(pyStrLt b a) && isSortedStr (b :: rest)

/-- The code-point comparison is asymmetric. -/
theorem pyCharsLt_asymm (a b : List Char) (h : pyCharsLt a b = true) :
    pyCharsLt b a = false := by
  induction a generalizing b with
  | nil =>
    cases b with
    | nil => simp [pyCharsLt] at h
    | cons c cs => simp [pyCharsLt]
  | cons x xs ih =>
    cases b with
    | nil => simp [pyCharsLt] at h
    | cons y ys =>
      simp only [pyCharsLt] at h ⊢
      by_cases h1 : x.toNat < y.toNat
      · rw [if_neg (by omega), if_pos h1]
      · rw [if_neg h1] at h
        by_cases h2 : y.toNat < x.toNat
        · rw [if_pos h2] at h
          exact absurd h (by simp)
        · rw [if_neg h2] at h
          rw [if_neg h2, if_neg h1]
          exact ih ys h

/-- The string comparison is asymmetric. -/
theorem pyStrLt_asymm (a b : String) (h : pyStrLt a b = true) :
    pyStrLt b a = false :=
  pyCharsLt_asymm a.toList b.toList h

/-- Insertion into a sorted list keeps it sorted. -/
theorem isSortedStr_pyInsertStr (x : String) (l : List String)
    (h : isSortedStr l = true) : isSortedStr (pyInsertStr x l) = true := by
  induction l with
  | nil => rfl
  | cons y ys ih =>
    by_cases hxy : pyStrLt x y = true
    · simp only [pyInsertStr, if_pos hxy]
      have ha : pyStrLt y x = false := pyStrLt_asymm x y hxy
      simp only [isSortedStr, ha, Bool.not_false, Bool.true_and]
      exact h
    · have hxy2 : pyStrLt x y = false := by
        revert hxy
        cases pyStrLt x y <;> simp
      simp only [pyInsertStr, if_neg hxy]
      cases ys with
      | nil => simp [pyInsertStr, isSortedStr, hxy2]
      | cons z zs =>
        simp only [isSortedStr, Bool.and_eq_true] at h
        obtain ⟨hyz, htail⟩ := h
        have ihs := ih htail
        have hx_or : pyInsertStr x (z :: zs) = x :: z :: zs ∨
            pyInsertStr x (z :: zs) = z :: pyInsertStr x zs := by
          by_cases hxz : pyStrLt x z = true
          · left
            simp only [pyInsertStr, if_pos hxz]
          · right
            simp only [pyInsertStr, if_neg hxz]
        rcases hx_or with he | he
        · rw [he]
          rw [he] at ihs
          simp only [isSortedStr, Bool.and_eq_true] at ihs ⊢
          exact ⟨by simp [hxy2], ihs⟩
        · rw [he]
          rw [he] at ihs
          simp only [isSortedStr, Bool.and_eq_true] at ihs ⊢
          exact ⟨by simp [hyz], ihs⟩

/-- The embedded Python sorted builtin produces a sorted list. -/
theorem isSortedStr_pySortStrings (l : List String) :
    isSortedStr (pySortStrings l) = true := by
  induction l with
  | nil => rfl
  | cons x xs ih => exact isSortedStr_pyInsertStr x (pySortStrings xs) ih

/-- C4 counterexample: a constructor-reachable region state in which two
M49 codes share a display name makes the dynamic branch return the same
iso3 code twice: the result is sorted but not deduplicated. -/
theorem get_countries_from_region_duplicates :
    GeoRegion.init m49dup gsdup = .ok grDup ∧
    grDup.get_countries_from_region "Foo" = .ok ["AAA", "AAA"] ∧
    ¬ (["AAA", "AAA"] : List String).Nodup := by
  exact ⟨by decide, by decide, by decide⟩

/-- C4 (amended): get_countries_from_region title-cases its argument,
fails with a key error naming the title-cased name when it is not a
known region name, and otherwise returns the member iso3 codes as a
sorted list (one entry per matching relation row, duplicates included
when two matching M49 rows share a display name). -/
theorem get_countries_from_region_spec (gr : GeoRegion) (region : String) :
    (pyTitle region ∉ gr.get_region_list →
      gr.get_countries_from_region region =
        .error (.keyError ("The given region \"" ++ pyTitle region ++
          "\" is unknown."))) ∧
    (pyTitle region ∈ gr.get_region_list →
      ∃ l, gr.get_countries_from_region region = .ok l ∧
        isSortedStr l = true) := by
  constructor
  · intro h
    simp only [GeoRegion.get_countries_from_region]
    rw [if_pos h]
  · intro h
    simp only [GeoRegion.get_countries_from_region]
    rw [if_neg (not_not_intro h)]
    exact ⟨_, rfl, isSortedStr_pySortStrings _⟩

/-- C4 witness: the unknown-name failure and the sorted success, both on
the sample region state. -/
theorem get_countries_from_region_spec_witness :
    grDup.get_countries_from_region "Nowhere Land" =
      .error (.keyError "The given region \"Nowhere Land\" is unknown.") ∧
    ∃ l, grDup.get_countries_from_region "G77" = .ok l ∧ isSortedStr l = true :=
  ⟨(get_countries_from_region_spec grDup "Nowhere Land").1 (by decide),
   (get_countries_from_region_spec grDup "G77").2 (by decide)⟩

/- ------------------------------------------------------------------ -/
/- C5                                                                 -/
/- ------------------------------------------------------------------ -/

/-- Assigning a key places that key-value pair in the dict. -/
theorem pyDictSet_mem_self (d : List (RKey × String)) (k : RKey) (v : String) :
    (k, v) ∈ pyDictSet d k v := by
  unfold pyDictSet
  by_cases hany : d.any (fun p => p.1 = k)
  · rw [if_pos hany]
    simp only [List.any_eq_true, decide_eq_true_eq] at hany
    obtain ⟨p, hp, hk⟩ := hany
    exact List.mem_map.mpr ⟨p, hp, by rw [if_pos hk]⟩
  · rw [if_neg hany]
    simp

/-- Assigning one key leaves pairs with a different key in place. -/
theorem pyDictSet_mem_preserve (d : List (RKey × String)) (k : RKey) (v : String)
    (k' : RKey) (v' : String) (hne : k' ≠ k) (h : (k', v') ∈ d) :
    (k', v') ∈ pyDictSet d k v := by
  unfold pyDictSet
  by_cases hany : d.any (fun p => p.1 = k)
  · rw [if_pos hany]
    exact List.mem_map.mpr ⟨(k', v'), h, by rw [if_neg (by simpa using hne)]⟩
  · rw [if_neg hany]
    exact List.mem_append_left _ h

/-- Every region dictionary the constructor builds knows the European
Union, whatever the fetched tables contained. -/
theorem init_region_list_has_eu (m49raw : List (Int × String))
    (gsraw : List GSRawRow) (gr : GeoRegion)
    (hinit : GeoRegion.init m49raw gsraw = .ok gr) :
    "European Union" ∈ gr.get_region_list := by
  simp only [GeoRegion.init] at hinit
  cases hfold : gsExplodeAll gsraw with
  | error e =>
    rw [hfold] at hinit
    exact absurd hinit (by simp)
  | ok triples =>
    rw [hfold] at hinit
    simp only [Except.ok.injEq] at hinit
    have hd : gr.region_dict = pyDictUpdate
        (pyDictUpdate [] ((m49raw.map (fun p =>
          (p.1, pyRStrip (pySplitParenHead p.2)))).map
            (fun p => (RKey.ik p.1, p.2)))) region_fixed_pairs := by
      rw [← hinit]
    have h1 : (RKey.sk "UE", "European Union") ∈ gr.region_dict := by
      rw [hd]
      simp only [pyDictUpdate, region_fixed_pairs, List.foldl]
      refine pyDictSet_mem_preserve _ _ _ _ _ (by decide) ?_
      refine pyDictSet_mem_preserve _ _ _ _ _ (by decide) ?_
      refine pyDictSet_mem_preserve _ _ _ _ _ (by decide) ?_
      refine pyDictSet_mem_preserve _ _ _ _ _ (by decide) ?_
      refine pyDictSet_mem_preserve _ _ _ _ _ (by decide) ?_
      exact pyDictSet_mem_self _ _ _
    exact List.mem_map.mpr ⟨(RKey.sk "UE", "European Union"), h1, rfl⟩

/-- C5 counterexample: the returned European Union list is the sorted
permutation of the hardcoded literal, not the literal itself (the
literal places EST before ESP and SWE before SVN, SVK). -/
theorem get_countries_eu_not_literal_order :
    gr0.get_countries_from_region "European Union" =
      .ok (pySortStrings eu_clist) ∧
    pySortStrings eu_clist ≠ eu_clist :=
  ⟨by decide, by decide⟩

/-- C5 (amended): whatever the two fetched region tables contained, the
European Union query returns the sorted hardcoded literal: 27 codes, no
duplicate, a permutation of the literal list. -/
theorem get_countries_eu_static (m49raw : List (Int × String))
    (gsraw : List GSRawRow) (gr : GeoRegion)
    (hinit : GeoRegion.init m49raw gsraw = .ok gr) :
    gr.get_countries_from_region "European Union" =
      .ok (pySortStrings eu_clist) ∧
    (pySortStrings eu_clist).length = 27 ∧
    (pySortStrings eu_clist).Nodup ∧
    (pySortStrings eu_clist).Perm eu_clist := by
  have hmem := init_region_list_has_eu m49raw gsraw gr hinit
  have hpt : pyTitle "European Union" = "European Union" := by decide
  refine ⟨?_, by decide, by decide, by decide⟩
  simp only [GeoRegion.get_countries_from_region, hpt]
  rw [if_neg (not_not_intro hmem)]
  simp

/-- C5 witness: a concrete constructor run with non-trivial dynamic
content still returns the sorted literal. -/
theorem get_countries_eu_static_witness :
    grDup.get_countries_from_region "European Union" =
      .ok (pySortStrings eu_clist) :=
  (get_countries_eu_static m49dup gsdup grDup (by decide)).1

/- ------------------------------------------------------------------ -/
/- C10                                                                -/
/- ------------------------------------------------------------------ -/

/-- A live reference points below the store length. -/
theorem heap_get_lt_length {h : Heap} {i : Nat} {df : DataFrame}
    (hget : h.get i = some df) : i < h.length := by
  by_contra hge
  rw [Heap.get, List.get?_eq_none.mpr (Nat.le_of_not_lt hge)] at hget
  exact Option.noConfusion hget

/-- Allocation leaves every existing cell readable unchanged. -/
theorem heap_get_append {h : Heap} (l : List DataFrame) {j : Nat}
    (hj : j < h.length) : Heap.get (List.append h l) j = h.get j := by
  simp only [Heap.get, List.append_eq]
  exact List.get?_append hj

/-- Writing one cell leaves every other cell unchanged. -/
theorem heap_get_set_ne (h : Heap) (i j : Nat) (df : DataFrame)
    (hne : i ≠ j) : Heap.get (h.setAt i df) j = h.get j := by
  simp only [Heap.get, Heap.setAt]
  exact List.get?_set_ne _ _ hne

/-- Evolution of the store that keeps the first n cells intact. -/
def HeapPreserves (n : Nat) (h h2 : Heap) : Prop :=
  n ≤ h2.length ∧ ∀ j, j < n → h2.get j = h.get j

/-- Preservation composes. -/
theorem HeapPreserves.trans {n : Nat} {h1 h2 h3 : Heap}
    (a : HeapPreserves n h1 h2) (b : HeapPreserves n h2 h3) :
    HeapPreserves n h1 h3 :=
  ⟨b.1, fun j hj => (b.2 j hj).trans (a.2 j hj)⟩

/-- The identity evolution preserves. -/
theorem HeapPreserves.refl {n : Nat} {h : Heap} (hn : n ≤ h.length) :
    HeapPreserves n h h :=
  ⟨hn, fun _ _ => rfl⟩

/-- Allocation preserves the first n cells. -/
theorem HeapPreserves.alloc {n : Nat} {h : Heap} (df : DataFrame)
    (hn : n ≤ h.length) : HeapPreserves n h (h.alloc df).1 := by
  refine ⟨?_, fun j hj => heap_get_append [df] (lt_of_lt_of_le hj hn)⟩
  simp only [Heap.alloc, List.append_eq, List.length_append]
  omega

/-- Writing at or above n preserves the first n cells. -/
theorem HeapPreserves.set {n : Nat} {h : Heap} {i : Nat} (df : DataFrame)
    (hn : n ≤ h.length) (hi : n ≤ i) : HeapPreserves n h (h.setAt i df) := by
  refine ⟨?_, fun j hj => heap_get_set_ne h i j df (by omega)⟩
  simp only [Heap.setAt, List.length_set]
  exact hn

/-- The drop step only allocates: the first n cells survive and the
frame variable keeps pointing at or above n. -/
theorem af_drop_step_preserves {n : Nat} {f : String} {h : Heap} {pid : Nat}
    {p p1 : DataFrame} {h1 : Heap} {pid1 : Nat}
    (hn : n ≤ h.length) (hpid : n ≤ pid)
    (hds : af_drop_step f h pid p = .ok (h1, pid1, p1)) :
    HeapPreserves n h h1 ∧ n ≤ pid1 := by
  unfold af_drop_step at hds
  by_cases hc : p.cols.contains f
  · rw [if_pos hc] at hds
    cases hdc : p.dropCol f false with
    | error e => rw [hdc] at hds; exact absurd hds (by simp)
    | ok p2 =>
      rw [hdc] at hds
      simp only [Except.ok.injEq, Prod.mk.injEq] at hds
      obtain ⟨e1, e2, _⟩ := hds
      subst e1
      subst e2
      exact ⟨HeapPreserves.alloc p2 hn, by simpa [Heap.alloc] using hn⟩
  · rw [if_neg hc] at hds
    simp only [Except.ok.injEq, Prod.mk.injEq] at hds
    obtain ⟨e1, e2, _⟩ := hds
    subst e1
    subst e2
    exact ⟨HeapPreserves.refl hn, hpid⟩

/-- Applying a branch effect writes only at the frame variable or
allocates, so the first n cells survive and the variable stays at or
above n. -/
theorem apply_effect_preserves {n : Nat} {h : Heap} {pid : Nat}
    {eff : FieldEffect} {h2 : Heap} {pid2 : Nat}
    (hn : n ≤ h.length) (hpid : n ≤ pid)
    (happ : apply_effect h pid eff = .ok (h2, pid2)) :
    HeapPreserves n h h2 ∧ n ≤ pid2 := by
  cases eff with
  | assignL c vals =>
    simp only [apply_effect] at happ
    cases hg : h.get pid with
    | none => rw [hg] at happ; exact absurd happ (by simp)
    | some p =>
      rw [hg] at happ
      simp only [bind, Except.bind] at happ
      cases hsc : p.setCol c vals with
      | error e => rw [hsc] at happ; exact absurd happ (by simp)
      | ok p2 =>
        rw [hsc] at happ
        simp only [pure, Except.pure, Except.ok.injEq, Prod.mk.injEq] at happ
        obtain ⟨e1, e2⟩ := happ
        subst e1
        subst e2
        exact ⟨HeapPreserves.set p2 hn hpid, hpid⟩
  | assignS c vals =>
    simp only [apply_effect] at happ
    cases hg : h.get pid with
    | none => rw [hg] at happ; exact absurd happ (by simp)
    | some p =>
      rw [hg] at happ
      simp only [Except.ok.injEq, Prod.mk.injEq] at happ
      obtain ⟨e1, e2⟩ := happ
      subst e1
      subst e2
      exact ⟨HeapPreserves.set _ hn hpid, hpid⟩
  | replace df =>
    simp only [apply_effect, Except.ok.injEq, Prod.mk.injEq] at happ
    obtain ⟨e1, e2⟩ := happ
    subst e1
    subst e2
    refine ⟨HeapPreserves.alloc df hn, ?_⟩
    simpa [Heap.alloc] using hn

/-- The field loop never touches a store cell below n when the frame
variable starts at or above n. -/
theorem af_loop_preserves (n : Nat) (ext : GeoInfoExt) (gm : GeoManager)
    (grp : DataFrame) (fuel : Nat) (iso2l iso3l : List String)
    (fl : List String) (h : Heap) (pid : Nat) (st : GeoInfoState)
    (hn : n ≤ h.length) (hpid : n ≤ pid) :
    HeapPreserves n h (af_loop ext gm grp fuel iso2l iso3l fl h pid st).1 := by
  induction fl generalizing h pid st with
  | nil => exact HeapPreserves.refl hn
  | cons f rest ih =>
    simp only [af_loop]
    split
    · exact HeapPreserves.refl hn
    · split
      · exact HeapPreserves.refl hn
      · rename_i p hg h1 pid1 p1 hds
        obtain ⟨hpres1, hpid1⟩ := af_drop_step_preserves hn hpid hds
        have hn1 : n ≤ h1.length := hpres1.1
        split
        · exact hpres1
        · rename_i st1 eff hpf
          split
          · exact hpres1
          · rename_i h2 pid2 hae
            obtain ⟨hpres2, hpid2⟩ := apply_effect_preserves hn1 hpid1 hae
            exact (hpres1.trans hpres2).trans (ih h2 pid2 st1 hpres2.1 hpid2)

/-- Validity of the two internal standard switches. -/
theorem set_standard_valid (gm : GeoManager) (s : String)
    (hs : s ∈ GeoManager.list_standard) :
    gm.set_standard s = .ok { gm with standard := s } := by
  simp only [GeoManager.set_standard]
  rw [if_neg (not_not_intro hs)]

/-- Reading back the loop result and dropping the temporary columns
only allocates, so a cell the loop preserved stays readable. -/
theorem af_finish_preserves (h3 : Heap) (st3 : GeoInfoState)
    (res : Except CoaErr Nat) (inputId : Nat) (df : DataFrame)
    (hr : h3.get inputId = some df) (hlt3 : inputId < h3.length) :
    ((af_finish h3 st3 res).1).get inputId = some df := by
  cases res with
  | error e => exact hr
  | ok pid3 =>
    simp only [af_finish]
    cases hg3 : h3.get pid3 with
    | none => simp only [hg3]; exact hr
    | some pf =>
      simp only [hg3]
      cases hdc : pf.dropCols ["iso2_tmp", "iso3_tmp"] true with
      | error e => simp only [hdc]; exact hr
      | ok pr =>
        simp only [hdc, Heap.alloc]
        rw [heap_get_append [pr] hlt3]
        exact hr

/-- C10: add_field never mutates the frame object the caller passed in:
whatever fields are requested and whether the call succeeds or fails,
the caller reference still reads the original frame after the call; all
column additions, drops and merges happen on the internal copy or on
freshly allocated frames. -/
theorem add_field_preserves_input (gi : GeoInfoState) (grp : DataFrame)
    (gm : GeoManager) (ext : GeoInfoExt) (fuel : Nat) (h : Heap)
    (inputId : Nat) (df : DataFrame) (field : List String)
    (geofield : String) (overload : Bool)
    (hget : h.get inputId = some df) :
    ((GeoInfo.add_field gi grp gm ext fuel h inputId field geofield
        overload).1).get inputId = some df := by
  have hlt : inputId < h.length := heap_get_lt_length hget
  have hga : Heap.get (List.append h [df]) inputId = some df := by
    rw [heap_get_append [df] hlt]
    exact hget
  simp only [GeoInfo.add_field, hget, Heap.alloc,
    set_standard_valid _ "iso2" (by decide), set_standard_valid _ "iso3" (by decide)]
  split
  · exact hga
  split
  · exact hga
  split
  · exact hga
  split
  · exact hga
  split
  · exact hga
  split
  · rename_i iso2l iso3l hts2 hts3
    split
    · exact hga
    · rename_i p2 hset
      have hbl : h.length ≤
          (Heap.setAt (List.append h [df]) (List.length h) p2).length := by
        simp only [Heap.setAt, List.length_set, List.append_eq, List.length_append]
        omega
      have hpres := af_loop_preserves h.length ext { gm with standard := "iso3" }
        grp fuel iso2l iso3l field
        (Heap.setAt (List.append h [df]) (List.length h) p2) (List.length h) gi
        hbl (le_refl _)
      rcases haf : af_loop ext { standard := "iso3", gr := gm.gr } grp fuel iso2l
          iso3l field (Heap.setAt (List.append h [df]) (List.length h) p2)
          (List.length h) gi with ⟨h3, st3, res⟩
      rw [haf] at hpres
      have hread : h3.get inputId = some df := by
        rw [hpres.2 inputId hlt, heap_get_set_ne _ _ _ _ (by omega)]
        exact hga
      exact af_finish_preserves h3 st3 res inputId df hread
        (lt_of_lt_of_le hlt hpres.1)
  · exact hga

/- ------------------------------------------------------------------ -/
/- C7                                                                 -/
/- ------------------------------------------------------------------ -/

/-- Under a duplicate-free key column, at most one right row matches any
key. -/
theorem filter_eq_key_length_le_one (ri : Nat) (rs : List (List Value))
    (k : Value) (hnd : (rs.map (fun rr => rowCell rr ri)).Nodup) :
    (rs.filter (fun rr => rowCell rr ri == k)).length ≤ 1 := by
  induction rs with
  | nil => simp
  | cons r rest ih =>
    simp only [List.map_cons, List.nodup_cons] at hnd
    obtain ⟨hnotin, hndrest⟩ := hnd
    by_cases hk : rowCell r ri == k
    · have hkeq : rowCell r ri = k := by simpa using hk
      have hrest : rest.filter (fun rr => rowCell rr ri == k) = [] := by
        rw [List.filter_eq_nil]
        intro rr hrr
        intro hc
        apply hnotin
        rw [List.mem_map]
        exact ⟨rr, hrr, by rw [hkeq]; simpa using hc⟩
      rw [List.filter_cons, if_pos hk, hrest]
      exact le_refl 1
    · rw [List.filter_cons, if_neg (by simpa using hk)]
      exact ih hndrest

/-- A left merge against a frame whose key column has no duplicate
values yields exactly one output row per left row. -/
theorem mergeLeft_rows_length (l r : DataFrame) (lk rk sl sr : String)
    (li ri : Nat) (out : DataFrame)
    (hli : l.colIdx lk = some li) (hri : r.colIdx rk = some ri)
    (hnd : (r.rows.map (fun rr => rowCell rr ri)).Nodup)
    (hm : l.mergeLeft r lk rk sl sr = .ok out) :
    out.rows.length = l.rows.length := by
  simp only [DataFrame.mergeLeft, hli, hri] at hm
  simp only [Except.ok.injEq] at hm
  rw [← hm]
  simp only [List.length_flatMap]
  have hone : ∀ lr ∈ l.rows,
      (let key := rowCell lr li
       let ms := r.rows.filter (fun rr => rowCell rr ri == key)
       if ms.isEmpty then [lr ++ r.cols.map (fun _ => Value.a VAtom.na)]
       else ms.map (fun rr => lr ++ (List.range r.cols.length).map
         (fun i => rowCell rr i))).length = 1 := by
    intro lr _
    simp only []
    by_cases he : (r.rows.filter (fun rr => rowCell rr ri == rowCell lr li)).isEmpty
    · rw [if_pos he]
      rfl
    · rw [if_neg he]
      simp only [List.length_map]
      have hle := filter_eq_key_length_le_one ri r.rows (rowCell lr li) hnd
      have hne : (r.rows.filter (fun rr => rowCell rr ri == rowCell lr li)).length ≠ 0 := by
        intro h0
        exact he (List.isEmpty_iff_length_eq_zero.mpr h0)
      omega
  calc (l.rows.map (fun lr =>
        (let key := rowCell lr li
         let ms := r.rows.filter (fun rr => rowCell rr ri == key)
         if ms.isEmpty then [lr ++ r.cols.map (fun _ => Value.a VAtom.na)]
         else ms.map (fun rr => lr ++ (List.range r.cols.length).map
           (fun i => rowCell rr i))).length)).sum
      = (l.rows.map (fun _ => 1)).sum := by
        apply congrArg
        exact List.map_congr_left hone
    _ = l.rows.length := by simp

/-- Column labels of the prepared population reference table, as the
fetch builds them. -/
def popCols : List String :=
  ["idx", "country", "population", "area", "fertility", "median_age", "urban_rate", "iso3_tmp2"]

/-- A flat map producing exactly one row per input row preserves the
row count. -/
theorem flatMap_singleton_length {a b : Type} (l : List a) (F : a → List b)
    (h1 : ∀ x ∈ l, (F x).length = 1) : (l.flatMap F).length = l.length := by
  simp only [List.length_flatMap]
  calc (l.map (fun x => (F x).length)).sum
      = (l.map (fun _ => 1)).sum := by
        apply congrArg
        exact List.map_congr_left h1
    _ = l.length := by simp

/-- Requesting the population field without overload on a frame already
carrying a population column fails with the duplicate-column key error,
leaving the heap with just the untouched input and its copy. -/
theorem add_field_population_duplicate_error (rows : List (List Value)) (gi : GeoInfoState) (grp : DataFrame)
    (gm : GeoManager) (ext : GeoInfoExt) (fuel : Nat) :
    GeoInfo.add_field gi grp gm ext fuel [⟨["location", "population"], rows⟩] 0
        ["population"] "location" false =
      ([⟨["location", "population"], rows⟩, ⟨["location", "population"], rows⟩], gi,
       .error (.keyError "Some fields already exist in you panda dataframe columns. You may set overload to True.")) := by
  simp only [GeoInfo.add_field, Heap.get, List.get?, Heap.alloc]
  have h1 : ¬¬(["population"].all fun f => GeoInfo.get_list_field.contains f) = true := by
    decide
  have h2 : ¬false = true ∧
      ¬(["population"].all fun f => decide ¬["location", "population"].contains f = true) = true := by
    decide
  rw [if_neg h1, if_pos h2]
  rfl

/-- Requesting the population field with overload on a frame already
carrying a population column succeeds when the reference table is
cached with duplicate-free keys and both standardizations succeed, and
the returned frame has exactly one row per input row. -/
theorem add_field_population_overload_ok (rows pr : List (List Value)) (gi : GeoInfoState) (grp : DataFrame)
    (gm : GeoManager) (ext : GeoInfoExt) (fuel : Nat)
    (iso2l iso3l w2 w3 : List String)
    (hdp : gi.data_population = ⟨popCols, pr⟩)
    (hpr : pr ≠ [])
    (hnd : (pr.map (fun r => rowCell r 7)).Nodup)
    (hts2 : GeoManager.to_standard ⟨"iso2", gm.gr⟩ ext.cat fuel
        (.list (List.map cellToPy (List.map (fun r => rowCell r 0) rows))) "list" none false =
      .ok (.list iso2l, w2))
    (hts3 : GeoManager.to_standard ⟨"iso3", gm.gr⟩ ext.cat fuel
        (.list (List.map cellToPy (List.map (fun r => rowCell r 0) rows))) "list" none false =
      .ok (.list iso3l, w3)) :
    ∃ h2 out, GeoInfo.add_field gi grp gm ext fuel
        [⟨["location", "population"], rows⟩] 0 ["population"] "location" true =
      (h2, gi, .ok 4) ∧ h2.get 4 = some out ∧ out.rows.length = rows.length := by
  obtain ⟨dp, dg, dfl⟩ := gi
  simp only at hdp
  subst hdp
  cases pr with
  | nil => exact absurd rfl hpr
  | cons r0 pr' =>
  have hlen2 : iso2l.length = rows.length := by
    have := to_standard_list_length ⟨"iso2", gm.gr⟩ ext.cat fuel _ none iso2l w2 hts2
    simpa using this
  have hlen3 : iso3l.length = rows.length := by
    have := to_standard_list_length ⟨"iso3", gm.gr⟩ ext.cat fuel _ none iso3l w3 hts3
    simpa using this
  simp only [GeoInfo.add_field, Heap.get, List.get?, Heap.alloc,
    set_standard_valid _ "iso2" (by decide), set_standard_valid _ "iso3" (by decide)]
  have c1 : ¬¬(["population"].all fun f => GeoInfo.get_list_field.contains f) = true := by
    decide
  have c3 : ¬¬(["location", "population"].contains "location") = true := by decide
  rw [if_neg c1]
  rw [if_neg (by simp)]
  rw [if_neg c3]
  have hdo2 : (do
      let locs ← ({ cols := ["location", "population"], rows := rows } : DataFrame).getColE "location"
      GeoManager.to_standard ⟨"iso2", gm.gr⟩ ext.cat fuel
        (.list (List.map cellToPy locs)) "list" none false) = .ok (.list iso2l, w2) := hts2
  have hdo3 : (do
      let locs ← ({ cols := ["location", "population"], rows := rows } : DataFrame).getColE "location"
      GeoManager.to_standard ⟨"iso3", gm.gr⟩ ext.cat fuel
        (.list (List.map cellToPy locs)) "list" none false) = .ok (.list iso3l, w3) := hts3
  simp only [hdo2, hdo3]
  have hset1 : ({ cols := ["location", "population"], rows := rows } : DataFrame).setCol
      "iso2_tmp" (List.map (fun s => Value.a (VAtom.vs s)) iso2l) =
      .ok ⟨["location", "population", "iso2_tmp"],
        List.map (fun p => p.1 ++ [p.2])
          (List.zip rows (List.map (fun s => Value.a (VAtom.vs s)) iso2l))⟩ := by
    simp only [DataFrame.setCol]
    rw [if_neg (by simp [hlen2])]
    rfl
  have hlenR1 : (List.map (fun p => p.1 ++ [p.2])
      (List.zip rows (List.map (fun s => Value.a (VAtom.vs s)) iso2l))).length = rows.length := by
    simp [hlen2]
  have hset2 : (DataFrame.setCol ⟨["location", "population", "iso2_tmp"],
      List.map (fun p => p.1 ++ [p.2])
        (List.zip rows (List.map (fun s => Value.a (VAtom.vs s)) iso2l))⟩
      "iso3_tmp" (List.map (fun s => Value.a (VAtom.vs s)) iso3l)) =
      .ok ⟨["location", "population", "iso2_tmp", "iso3_tmp"],
        List.map (fun p => p.1 ++ [p.2])
          (List.zip (List.map (fun p => p.1 ++ [p.2])
            (List.zip rows (List.map (fun s => Value.a (VAtom.vs s)) iso2l)))
            (List.map (fun s => Value.a (VAtom.vs s)) iso3l))⟩ := by
    simp only [DataFrame.setCol]
    rw [if_neg (by simp [hlenR1, hlen3])]
    rfl
  simp only [hset1, bind, Except.bind, hset2]
  refine ⟨_, _, rfl, rfl, ?_⟩
  show (List.map (fun r => List.eraseIdx r 1)
      (List.map (fun r => List.eraseIdx r 1)
        (List.map (fun r => List.eraseIdx r 3)
          ((List.map (fun r => List.eraseIdx r 1)
            (List.map (fun p => p.1 ++ [p.2])
              ((List.map (fun p => p.1 ++ [p.2])
                (rows.zip (List.map (fun s => Value.a (VAtom.vs s)) iso2l))).zip
                (List.map (fun s => Value.a (VAtom.vs s)) iso3l)))).flatMap
            (fun lr =>
              let key := rowCell lr 2
              let ms := List.filter (fun rr => rowCell rr 0 == key)
                (List.map (fun r => [rowCell r 7, rowCell r 2]) (r0 :: pr'))
              if ms.isEmpty then [lr ++ [Value.a VAtom.na, Value.a VAtom.na]]
              else ms.map (fun rr => lr ++ [rowCell rr 0, rowCell rr 1])))))).length =
    rows.length
  have hnd0 : ((List.map (fun r => [rowCell r 7, rowCell r 2]) (r0 :: pr')).map
      (fun rr => rowCell rr 0)).Nodup := by
    rw [List.map_map]
    exact hnd
  have hone : ∀ lr ∈ (List.map (fun r => List.eraseIdx r 1)
      (List.map (fun p => p.1 ++ [p.2])
        ((List.map (fun p => p.1 ++ [p.2])
          (rows.zip (List.map (fun s => Value.a (VAtom.vs s)) iso2l))).zip
          (List.map (fun s => Value.a (VAtom.vs s)) iso3l)))),
      ((fun lr =>
        let key := rowCell lr 2
        let ms := List.filter (fun rr => rowCell rr 0 == key)
          (List.map (fun r => [rowCell r 7, rowCell r 2]) (r0 :: pr'))
        if ms.isEmpty then [lr ++ [Value.a VAtom.na, Value.a VAtom.na]]
        else ms.map (fun rr => lr ++ [rowCell rr 0, rowCell rr 1])) lr).length = 1 := by
    intro lr _
    simp only
    by_cases he : (List.filter (fun rr => rowCell rr 0 == rowCell lr 2)
        (List.map (fun r => [rowCell r 7, rowCell r 2]) (r0 :: pr'))).isEmpty
    · rw [if_pos he]
      rfl
    · rw [if_neg he]
      simp only [List.length_map]
      have hle := filter_eq_key_length_le_one 0
        (List.map (fun r => [rowCell r 7, rowCell r 2]) (r0 :: pr')) (rowCell lr 2) hnd0
      have hne : (List.filter (fun rr => rowCell rr 0 == rowCell lr 2)
          (List.map (fun r => [rowCell r 7, rowCell r 2]) (r0 :: pr'))).length ≠ 0 := by
        intro h0
        exact he (List.isEmpty_iff_length_eq_zero.mpr h0)
      omega
  simp only [List.length_map]
  rw [flatMap_singleton_length _ _ hone]
  simp [List.length_zip, hlen2, hlen3]


/-- C7: on an input table that already has a population column, the
add_field population request fails with a DuplicateKey (CoaKeyError)
error when overload is false, and with overload true the same call
succeeds (given a cached duplicate-free reference table and resolvable
locations) returning a table with exactly one output row per input
row. -/
theorem add_field_population_duplicate_key (rows pr : List (List Value))
    (gi : GeoInfoState) (grp : DataFrame) (gm : GeoManager) (ext : GeoInfoExt)
    (fuel : Nat) (iso2l iso3l w2 w3 : List String)
    (hdp : gi.data_population = ⟨popCols, pr⟩)
    (hpr : pr ≠ [])
    (hnd : (pr.map (fun r => rowCell r 7)).Nodup)
    (hts2 : GeoManager.to_standard ⟨"iso2", gm.gr⟩ ext.cat fuel
        (.list (List.map cellToPy (List.map (fun r => rowCell r 0) rows))) "list" none false =
      .ok (.list iso2l, w2))
    (hts3 : GeoManager.to_standard ⟨"iso3", gm.gr⟩ ext.cat fuel
        (.list (List.map cellToPy (List.map (fun r => rowCell r 0) rows))) "list" none false =
      .ok (.list iso3l, w3)) :
    GeoInfo.add_field gi grp gm ext fuel [⟨["location", "population"], rows⟩] 0
        ["population"] "location" false =
      ([⟨["location", "population"], rows⟩, ⟨["location", "population"], rows⟩], gi,
       .error (.keyError "Some fields already exist in you panda dataframe columns. You may set overload to True.")) ∧
    (∃ h2 out, GeoInfo.add_field gi grp gm ext fuel
        [⟨["location", "population"], rows⟩] 0 ["population"] "location" true =
      (h2, gi, .ok 4) ∧ h2.get 4 = some out ∧ out.rows.length = rows.length) :=
  ⟨add_field_population_duplicate_error rows gi grp gm ext fuel,
   add_field_population_overload_ok rows pr gi grp gm ext fuel iso2l iso3l w2 w3
     hdp hpr hnd hts2 hts3⟩

/- ------------------------------------------------------------------ -/
/- C8 and shared samples                                              -/
/- ------------------------------------------------------------------ -/

/-- The empty frame. -/
def dfEmptyF : DataFrame := ⟨[], []⟩

/-- Cache state with nothing fetched yet. -/
def stEmpty : GeoInfoState := ⟨dfEmptyF, dfEmptyF, dfEmptyF⟩

/-- Sample external world: the G7 catalogue, no continent mapping and
empty raw reference sources. -/
def extSample : GeoInfoExt :=
  { cat := cat7
    continent_code_of_iso2 := fun _ => .error (.keyError "no continent mapping")
    continent_name_of_code := fun _ => .error (.keyError "no continent mapping")
    country_name_of_iso2 := fun _ => .error (.keyError "no continent mapping")
    pop_raw := dfEmptyF
    geometry_fetched := dfEmptyF
    flag_raw := dfEmptyF }

/-- Sample caller frame with a location column and a pre-existing
population column. -/
def dfIn : DataFrame :=
  ⟨["location", "population"], [[.a (.vs "France"), .a (.vi 70)]]⟩

/-- Rows of a sample cached population reference table. -/
def prX : List (List Value) :=
  [[.a (.vi 1), .a (.vs "France"), .a (.vi 67000000), .a (.vi 500000),
    .a (.vi 2), .a (.vi 41), .a (.vi 80), .a (.vs "FRA")]]

/-- Cache state holding the sample population table. -/
def stCached : GeoInfoState := ⟨⟨popCols, prX⟩, dfEmptyF, dfEmptyF⟩

/-- C8: a field list containing any unsupported name makes add_field
fail with the InvalidKey error immediately after copying the input: the
cache state is returned untouched (no reference-table fetch happened)
and the heap holds only the untouched input and its copy (no other
field processing happened). -/
theorem add_field_unknown_field (gi : GeoInfoState) (grp : DataFrame)
    (gm : GeoManager) (ext : GeoInfoExt) (fuel : Nat) (h : Heap)
    (inputId : Nat) (df : DataFrame) (field : List String)
    (geofield : String) (overload : Bool)
    (hget : h.get inputId = some df)
    (hbad : ∃ f ∈ field, f ∉ GeoInfo.get_list_field) :
    GeoInfo.add_field gi grp gm ext fuel h inputId field geofield overload =
      (List.append h [df], gi,
       .error (.keyError "All fields are not valid or supported ones. Please see help of get_list_field()")) := by
  have hcond : ¬ (field.all (fun f => GeoInfo.get_list_field.contains f) = true) := by
    obtain ⟨f, hf, hnot⟩ := hbad
    intro hall
    rw [List.all_eq_true] at hall
    exact hnot (by simpa using hall f hf)
  simp only [GeoInfo.add_field, hget, Heap.alloc]
  rw [if_pos hcond]

/-- C8 witness: requesting the unsupported field blah fails with the
key error and leaves the empty cache state untouched. -/
theorem add_field_unknown_field_witness :
    GeoInfo.add_field stEmpty dfEmptyF ⟨"iso2", gr0⟩ extSample 0 [dfIn] 0
        ["blah"] "location" false =
      ([dfIn, dfIn], stEmpty,
       .error (.keyError "All fields are not valid or supported ones. Please see help of get_list_field()")) :=
  add_field_unknown_field stEmpty dfEmptyF ⟨"iso2", gr0⟩ extSample 0 [dfIn] 0 dfIn
    ["blah"] "location" false rfl ⟨"blah", by decide, by decide⟩

/-- C7 witness: the concrete duplicate-column failure and overload
success on a one-row frame against the sample cached table. -/
theorem add_field_population_duplicate_key_witness :
    GeoInfo.add_field stCached dfEmptyF ⟨"iso2", gr0⟩ extSample 5 [dfIn] 0
        ["population"] "location" false =
      ([dfIn, dfIn], stCached,
       .error (.keyError "Some fields already exist in you panda dataframe columns. You may set overload to True.")) ∧
    (∃ h2 out, GeoInfo.add_field stCached dfEmptyF ⟨"iso2", gr0⟩ extSample 5 [dfIn] 0
        ["population"] "location" true =
      (h2, stCached, .ok 4) ∧ h2.get 4 = some out ∧
      out.rows.length = ([[Value.a (VAtom.vs "France"), Value.a (VAtom.vi 70)]] : List (List Value)).length) :=
  add_field_population_duplicate_key
    [[Value.a (VAtom.vs "France"), Value.a (VAtom.vi 70)]] prX stCached dfEmptyF
    ⟨"iso2", gr0⟩ extSample 5 ["FR"] ["FRA"] [] [] rfl (by decide) (by decide)
    (by decide) (by decide)

/-- C10 witness: after a successful augmentation call, the caller
reference still reads the original frame. -/
theorem add_field_preserves_input_witness :
    ((GeoInfo.add_field stCached dfEmptyF ⟨"iso2", gr0⟩ extSample 5 [dfIn] 0
        ["population"] "location" true).1).get 0 = some dfIn :=
  add_field_preserves_input stCached dfEmptyF ⟨"iso2", gr0⟩ extSample 5 [dfIn] 0
    dfIn ["population"] "location" true rfl
